import Mathlib

/-!
Verification of the ID3v2 tag decoder (package `id3v2`, file `id3v2.go`).

The Go source is shallowly embedded over `Nat` and `List Nat`:

* a Go `byte` is a `Nat` (values below 256 in real data);
* a Go `[]byte`, and a Go `string` (which is a byte sequence), is a `List Nat`;
* a Go `rune` is a `Nat` code point;
* Go `uint32` arithmetic is `Nat` arithmetic with an explicit `% 2^32`
  wherever the Go computation can wrap;
* a fallible Go function returns `Except Err α`; a Go function that can
  panic at runtime (index or slice out of range) additionally returns
  `Option`, with `none` marking the panic;
* the Go maps `frames` and `txxx` (`map[string]string`) are association
  lists with last-write-wins insertion; Go's randomized iteration order is
  fixed to list order (the `txxxEquiv` table is injective, so the one map
  iteration in `translateTXXXFrames` is order-independent on its images).
-/

/-- Decidable equality for `Except`, so that concrete decoder outcomes can be
checked by `decide`. -/
instance {ε α : Type} [DecidableEq ε] [DecidableEq α] : DecidableEq (Except ε α) := fun a b =>
  match a, b with
  | .ok x, .ok y =>
    if h : x = y then .isTrue (congrArg Except.ok h)
    else .isFalse (fun he => h (Except.ok.inj he))
  | .error x, .error y =>
    if h : x = y then .isTrue (congrArg Except.error h)
    else .isFalse (fun he => h (Except.error.inj he))
  | .ok _, .error _ => .isFalse (fun he => Except.noConfusion he)
  | .error _, .ok _ => .isFalse (fun he => Except.noConfusion he)

/-- A Go string, embedded as its byte sequence; a Go byte is a plain `Nat`
(kept as `Nat` rather than a synonym so that arithmetic automation sees the
type directly). -/
abbrev GoStr := List Nat

/-- Byte sequence of an ASCII string literal, for frame IDs and table keys. -/
def asciiBytes (s : String) : List Nat := s.data.map Char.toNat

/-- The fields of the Go `Header` struct that `readFrames` consumes:
`Major uint8`, `Flags uint8`, `Size uint32`. -/
structure Header where
  major : Nat
  flags : Nat
  size : Nat
deriving DecidableEq

/-- The distinct error values that can surface from the embedded code paths:
`io.EOF`, `io.ErrUnexpectedEOF`, `ErrEncryption`, `ErrMalformedBOM`, the
`unknown encoding` error, the `unexpected eof inside terminated string`
error from `readTerminatedString`, the `unexpected eof in frame header`
error from `readFrames`, `zlib.ErrHeader`, `zlib.ErrDictionary`, and the
`strconv.Atoi` failure surfaced by `parseMultiNumber`. -/
inductive Err where
  | eof
  | unexpectedEOF
  | encryption
  | malformedBOM
  | unknownEncoding (b : Nat)
  | terminatedStringEOF
  | frameHeaderEOF
  | zlibHeader
  | zlibDictionary
  | badNumber
deriving DecidableEq

/-- Go `func synchsafe32(n uint32) uint32`:
`m := n & 0x7f; m |= ((n & 0x7f00) >> 1); m |= ((n & 0x7f0000) >> 2);
m |= ((n & 0x7f000000) >> 3); return m`. -/
def synchsafe32 (n : Nat) : Nat :=
  ((n &&& 0x7f) ||| ((n &&& 0x7f00) >>> 1)) |||
    ((n &&& 0x7f0000) >>> 2) ||| ((n &&& 0x7f000000) >>> 3)

/-- Modelled from the spec: the repository has no synchsafe encoder, only the
decoder `synchsafe32`. Per the spec, the 4-byte synchsafe encoding of a
28-bit value carries 7 bits per byte with bit 7 of every byte clear: byte
`k` (big-endian) holds bits `7k .. 7k+6` of the value. -/
def encodeSynchsafe (v : Nat) : Nat :=
  (v / 2 ^ 21 % 128) * 2 ^ 24 + (v / 2 ^ 14 % 128) * 2 ^ 16 +
    (v / 2 ^ 7 % 128) * 2 ^ 8 + v % 128

/-- Go's conversion `string(r)` for a single rune: UTF-8 encoding, with
surrogates and out-of-range values replaced by U+FFFD (`EF BF BD`). -/
def utf8EncodeRune (r : Nat) : List Nat :=
  if r < 0x80 then [r]
  else if r < 0x800 then [0xC0 + r / 64, 0x80 + r % 64]
  else if 0xD800 ≤ r ∧ r < 0xE000 then [0xEF, 0xBF, 0xBD]
  else if r < 0x10000 then [0xE0 + r / 4096, 0x80 + r / 64 % 64, 0x80 + r % 64]
  else if r ≤ 0x10FFFF then
    [0xF0 + r / 262144, 0x80 + r / 4096 % 64, 0x80 + r / 64 % 64, 0x80 + r % 64]
  else [0xEF, 0xBF, 0xBD]

/-- Go's conversion `string(rs)` for a `[]rune`: concatenated UTF-8. -/
def goStringOfRunes (rs : List Nat) : GoStr := rs.flatMap utf8EncodeRune

/-- Go `func decodeLatin1(buf []byte) string`: each byte becomes one rune,
then the rune slice is converted to a string. -/
def decodeLatin1 (buf : List Nat) : GoStr := goStringOfRunes buf

/-- The rune slice built by Go `func decodeUTF16BE(buf []byte) string`:
`for i := 0; i < len(buf); i += 2 { s = append(s, rune(buf[i])|rune(buf[i+1])<<8) }`.
On a buffer of odd length the final `buf[i+1]` is out of range: `none`
models that panic. (Despite the name, the first byte lands in the low
bits, i.e. this decodes little-endian units.) -/
def decodeUTF16BErunes : List Nat → Option (List Nat)
  | [] => some []
  | [_] => none
  | a :: b :: rest => (decodeUTF16BErunes rest).map (fun l => (a ||| b <<< 8) :: l)

/-- The rune slice built by Go `func decodeUTF16LE(buf []byte) string`:
`s = append(s, rune(buf[i])<<8|rune(buf[i+1]))`; `none` models the
out-of-range panic on odd length. -/
def decodeUTF16LErunes : List Nat → Option (List Nat)
  | [] => some []
  | [_] => none
  | a :: b :: rest => (decodeUTF16LErunes rest).map (fun l => (a <<< 8 ||| b) :: l)

/-- Go `bytes.Replace(buf, []byte{0xFF, 0x00}, []byte{0xFF}, -1)`: replace
every non-overlapping occurrence of `FF 00` with `FF`, left to right. -/
def goReplace : List Nat → List Nat
  | 0xFF :: 0x00 :: rest => 0xFF :: goReplace rest
  | b :: rest => b :: goReplace rest
  | [] => []

/-- Go `strings.TrimRight(s, "\x00")`: drop all trailing `0x00` bytes. -/
def trimRightNul (s : GoStr) : GoStr := (s.reverse.dropWhile (· = 0)).reverse

/-- Go `func decodeTextFrame(enc byte, buf []byte, unsynch bool) (string, error)`.
`none` models a runtime panic: `buf[:2]` with fewer than 2 bytes in the
`encUTF16_BOM` arm, or the odd-length panic inside the UTF-16 helpers. -/
def decodeTextFrame (enc : Nat) (buf0 : List Nat) (unsynch : Bool) :
    Option (Except Err GoStr) :=
  if buf0 = [] then some (.ok []) else
  let buf := if unsynch then goReplace buf0 else buf0
  let res : Option (Except Err GoStr) :=
    if enc = 0x00 then some (.ok (decodeLatin1 buf))
    else if enc = 0x01 then
      match buf with
      | b0 :: b1 :: rest =>
        if b0 = 0xFF ∧ b1 = 0xFE then
          (decodeUTF16BErunes rest).map (fun rs => .ok (goStringOfRunes rs))
        else if b0 = 0xFE ∧ b1 = 0xFF then
          (decodeUTF16LErunes rest).map (fun rs => .ok (goStringOfRunes rs))
        else some (.error .malformedBOM)
      | _ => none
    else if enc = 0x02 then
      (decodeUTF16BErunes buf).map (fun rs => .ok (goStringOfRunes rs))
    else if enc = 0x03 then some (.ok buf)
    else some (.error (.unknownEncoding enc))
  res.map (fun r => r.map trimRightNul)

/-- Split a byte list at the first `0x00`: `some (prefixPart, rest)` where the
`0x00` itself belongs to neither side, or `none` if there is no `0x00`.
Models `bytes.Buffer.ReadString('\x00')`. -/
def breakAtNul : List Nat → Option (List Nat × List Nat)
  | [] => none
  | 0 :: rest => some ([], rest)
  | b :: rest => (breakAtNul rest).map (fun p => (b :: p.1, p.2))

/-- The double-byte-terminator loop of Go `readTerminatedString`: take two
bytes with `r.Next(2)` (error if fewer remain), stop on `00 00`, otherwise
append the first byte and `UnreadNat` the second, so the scan advances one
byte per step. Returns the result together with the remaining buffer. -/
def twoByteLoop : List Nat → List Nat → Except Err GoStr × List Nat
  | [], _ => (.error .terminatedStringEOF, [])
  | [_], _ => (.error .terminatedStringEOF, [])
  | a :: b :: rest, buf =>
    if a = 0 ∧ b = 0 then (.ok buf, rest)
    else twoByteLoop (b :: rest) (buf ++ [a])

/-- Go `func readTerminatedString(enc byte, r *bytes.Buffer) (string, error)`,
returning additionally the state of the buffer afterwards (a caller in
`readFrames` ignores the result and keeps reading the buffer). For
`encISO8859_1`/`encUTF8`, `ReadString('\x00')` reads through the first null
(consuming everything on failure); otherwise the two-byte loop runs. -/
def readTerminatedString (enc : Nat) (r : List Nat) : Except Err GoStr × List Nat :=
  if enc = 0x00 ∨ enc = 0x03 then
    match breakAtNul r with
    | none => (.error .eof, [])
    | some (pre, post) =>
      if (pre ++ [0]).length ≤ 1 then (.ok [], post) else (.ok pre, post)
  else twoByteLoop r []

/-- Lookup in an association-list map, first match wins (keys are unique). -/
def mapLookup : List (List Nat × GoStr) → List Nat → Option GoStr
  | [], _ => none
  | (k', v) :: rest, k => if k' = k then some v else mapLookup rest k

/-- Insert into an association-list map with Go-map semantics: update the
existing key in place, or append a new binding. -/
def mapInsert : List (List Nat × GoStr) → List Nat → GoStr → List (List Nat × GoStr)
  | [], k, v => [(k, v)]
  | (k', v') :: rest, k, v =>
    if k' = k then (k', v) :: rest else (k', v') :: mapInsert rest k v

/-- Go `var txxxEquiv = map[string]string{...}`: the user-text-frame (TXXX)
description to canonical-frame-ID table, all 43 entries. -/
def txxxEquiv : List (List Nat × GoStr) :=
  [(asciiBytes "ALBUM", asciiBytes "TALB"),
   (asciiBytes "BPM", asciiBytes "TBPM"),
   (asciiBytes "COMPOSER", asciiBytes "TCOM"),
   (asciiBytes "GENRE", asciiBytes "TCON"),
   (asciiBytes "COPYRIGHT", asciiBytes "TCOP"),
   (asciiBytes "ENCODINGTIME", asciiBytes "TDEN"),
   (asciiBytes "PLAYLISTDELAY", asciiBytes "TDLY"),
   (asciiBytes "ORIGINALDATE", asciiBytes "TDOR"),
   (asciiBytes "DATE", asciiBytes "TDRC"),
   (asciiBytes "RELEASEDATE", asciiBytes "TDRL"),
   (asciiBytes "TAGGINGDATE", asciiBytes "TDTG"),
   (asciiBytes "ENCODEDBY", asciiBytes "TENC"),
   (asciiBytes "LYRICIST", asciiBytes "TEXT"),
   (asciiBytes "FILETYPE", asciiBytes "TFLT"),
   (asciiBytes "CONTENTGROUP", asciiBytes "TIT1"),
   (asciiBytes "TITLE", asciiBytes "TIT2"),
   (asciiBytes "SUBTITLE", asciiBytes "TIT3"),
   (asciiBytes "INITIALKEY", asciiBytes "TKEY"),
   (asciiBytes "LANGUAGE", asciiBytes "TLAN"),
   (asciiBytes "LENGTH", asciiBytes "TLEN"),
   (asciiBytes "MEDIA", asciiBytes "TMED"),
   (asciiBytes "MOOD", asciiBytes "TMOO"),
   (asciiBytes "ORIGINALALBUM", asciiBytes "TOAL"),
   (asciiBytes "ORIGINALFILENAME", asciiBytes "TOFN"),
   (asciiBytes "ORIGINALLYRICIST", asciiBytes "TOLY"),
   (asciiBytes "ORIGINALARTIST", asciiBytes "TOPE"),
   (asciiBytes "OWNER", asciiBytes "TOWN"),
   (asciiBytes "ARTIST", asciiBytes "TPE1"),
   (asciiBytes "ALBUMARTIST", asciiBytes "TPE2"),
   (asciiBytes "CONDUCTOR", asciiBytes "TPE3"),
   (asciiBytes "REMIXER", asciiBytes "TPE4"),
   (asciiBytes "DISCNUMBER", asciiBytes "TPOS"),
   (asciiBytes "PRODUCEDNOTICE", asciiBytes "TPRO"),
   (asciiBytes "LABEL", asciiBytes "TPUB"),
   (asciiBytes "TRACKNUMBER", asciiBytes "TRCK"),
   (asciiBytes "RADIOSTATION", asciiBytes "TRSN"),
   (asciiBytes "RADIOSTATIONOWNER", asciiBytes "TRSO"),
   (asciiBytes "ALBUMSORT", asciiBytes "TSOA"),
   (asciiBytes "ARTISTSORT", asciiBytes "TSOP"),
   (asciiBytes "TITLESORT", asciiBytes "TSOT"),
   (asciiBytes "ALBUMARTISTSORT", asciiBytes "TSO2"),
   (asciiBytes "ISRC", asciiBytes "TSRC"),
   (asciiBytes "ENCODING", asciiBytes "TSSE")]

/-- Go `var v22Equiv = map[string]string{...}`: the 3-character v2.2 frame ID
to canonical 4-character ID table, all 61 entries. -/
def v22Equiv : List (List Nat × GoStr) :=
  [(asciiBytes "BUF", asciiBytes "RBUF"),
   (asciiBytes "CNT", asciiBytes "PCNT"),
   (asciiBytes "COM", asciiBytes "COMM"),
   (asciiBytes "CRA", asciiBytes "AENC"),
   (asciiBytes "ETC", asciiBytes "ETCO"),
   (asciiBytes "GEO", asciiBytes "GEOB"),
   (asciiBytes "IPL", asciiBytes "TIPL"),
   (asciiBytes "MCI", asciiBytes "MCDI"),
   (asciiBytes "MLL", asciiBytes "MLLT"),
   (asciiBytes "POP", asciiBytes "POPM"),
   (asciiBytes "REV", asciiBytes "RVRB"),
   (asciiBytes "SLT", asciiBytes "SYLT"),
   (asciiBytes "STC", asciiBytes "SYTC"),
   (asciiBytes "TAL", asciiBytes "TALB"),
   (asciiBytes "TBP", asciiBytes "TBPM"),
   (asciiBytes "TCM", asciiBytes "TCOM"),
   (asciiBytes "TCO", asciiBytes "TCON"),
   (asciiBytes "TCP", asciiBytes "TCMP"),
   (asciiBytes "TCR", asciiBytes "TCOP"),
   (asciiBytes "TDY", asciiBytes "TDLY"),
   (asciiBytes "TEN", asciiBytes "TENC"),
   (asciiBytes "TFT", asciiBytes "TFLT"),
   (asciiBytes "TKE", asciiBytes "TKEY"),
   (asciiBytes "TLA", asciiBytes "TLAN"),
   (asciiBytes "TLE", asciiBytes "TLEN"),
   (asciiBytes "TMT", asciiBytes "TMED"),
   (asciiBytes "TOA", asciiBytes "TOAL"),
   (asciiBytes "TOF", asciiBytes "TOFN"),
   (asciiBytes "TOL", asciiBytes "TOLY"),
   (asciiBytes "TOR", asciiBytes "TDOR"),
   (asciiBytes "TOT", asciiBytes "TOAL"),
   (asciiBytes "TP1", asciiBytes "TPE1"),
   (asciiBytes "TP2", asciiBytes "TPE2"),
   (asciiBytes "TP3", asciiBytes "TPE3"),
   (asciiBytes "TP4", asciiBytes "TPE4"),
   (asciiBytes "TPA", asciiBytes "TPOS"),
   (asciiBytes "TPB", asciiBytes "TPUB"),
   (asciiBytes "TRC", asciiBytes "TSRC"),
   (asciiBytes "TRD", asciiBytes "TDRC"),
   (asciiBytes "TRK", asciiBytes "TRCK"),
   (asciiBytes "TS2", asciiBytes "TSO2"),
   (asciiBytes "TSA", asciiBytes "TSOA"),
   (asciiBytes "TSC", asciiBytes "TSOC"),
   (asciiBytes "TSP", asciiBytes "TSOP"),
   (asciiBytes "TSS", asciiBytes "TSSE"),
   (asciiBytes "TST", asciiBytes "TSOT"),
   (asciiBytes "TT1", asciiBytes "TIT1"),
   (asciiBytes "TT2", asciiBytes "TIT2"),
   (asciiBytes "TT3", asciiBytes "TIT3"),
   (asciiBytes "TXT", asciiBytes "TOLY"),
   (asciiBytes "TXX", asciiBytes "TXXX"),
   (asciiBytes "TYE", asciiBytes "TDRC"),
   (asciiBytes "UFI", asciiBytes "UFID"),
   (asciiBytes "ULT", asciiBytes "USLT"),
   (asciiBytes "WAF", asciiBytes "WOAF"),
   (asciiBytes "WAR", asciiBytes "WOAR"),
   (asciiBytes "WAS", asciiBytes "WOAS"),
   (asciiBytes "WCM", asciiBytes "WCOM"),
   (asciiBytes "WCP", asciiBytes "WCOP"),
   (asciiBytes "WPB", asciiBytes "WPUB"),
   (asciiBytes "WXX", asciiBytes "WXXX")]

/-- Go `func decodeTXXX(txxx map[string]string, buf []byte, unsynch bool) error`:
`enc := buf[0]` (a panic, `none`, on an empty buffer), read the terminated
description, decode the rest as a text frame, store `txxx[name] = s`. -/
def decodeTXXX (txxx : List (List Nat × GoStr)) (buf : List Nat) (unsynch : Bool) :
    Option (Except Err (List (List Nat × GoStr))) :=
  match buf with
  | [] => none
  | enc :: rest =>
    match readTerminatedString enc rest with
    | (.error e, _) => some (.error e)
    | (.ok name, b) =>
      match decodeTextFrame enc b unsynch with
      | none => none
      | some (.error e) => some (.error e)
      | some (.ok s) => some (.ok (mapInsert txxx name s))

/-- Go `func translateTXXXFrames(frames, txxx map[string]string)`: for each
collected TXXX description/value pair, look the description up in
`txxxEquiv` and, when mapped, store the value in `frames` under the
canonical ID; unmapped descriptions are dropped. -/
def translateTXXXFrames (frames txxx : List (List Nat × GoStr)) :
    List (List Nat × GoStr) :=
  match txxx with
  | [] => frames
  | (key, val) :: rest =>
    match mapLookup txxxEquiv key with
    | some frameID => translateTXXXFrames (mapInsert frames frameID val) rest
    | none => translateTXXXFrames frames rest


/-- True for ASCII `A`-`Z` and `0`-`9`, the character class of the frame-name
pattern. -/
def isUpperDigit (b : Nat) : Bool := (65 ≤ b ∧ b ≤ 90) ∨ (48 ≤ b ∧ b ≤ 57)

/-- Go `func validFrameName(name []byte) bool`, the regular expression
`^[A-Z0-9]+\x00*$`: one or more uppercase letters or digits, right-padded
with zero or more null bytes. -/
def validFrameName (name : List Nat) : Bool :=
  let core := name.takeWhile isUpperDigit
  1 ≤ core.length ∧ (name.drop core.length).all (· = 0)

/-- Go `io.ReadFull` on a `bytes.Reader` with `n` bytes requested: `io.EOF`
when no byte is available (and some were requested), `io.ErrUnexpectedEOF`
when only part of the request is available, otherwise the bytes read and
the rest of the stream. -/
def readFull (n : Nat) (l : List Nat) : Except Err (List Nat × List Nat) :=
  if l.length = 0 ∧ 0 < n then .error .eof
  else if l.length < n then .error .unexpectedEOF
  else .ok (l.take n, l.drop n)

/-- The padding/garbage recovery loop of `readFrames`: while the window is
not a valid frame name and `pos` is below the tag size, read one byte,
shift the window left and append it, advancing `pos`. `none` models
`break frameloop` on `io.EOF` from `ReadNat`. -/
def seekFrame (hSize : Nat) (frameID : List Nat) (rr : List Nat) (pos : Nat) :
    Option (List Nat × List Nat × Nat) :=
  if validFrameName frameID = false ∧ pos < hSize then
    match rr with
    | [] => none
    | b :: rest => seekFrame hSize (frameID.drop 1 ++ [b]) rest (pos + 1)
  else some (frameID, rr, pos)

/-- Go `zlib.NewReader(rr)` as used in `readFrames`: it eagerly consumes the
2-byte zlib header from `rr` (checking the method nibble and the mod-31
checksum), and on a set `FDICT` bit consumes a further 4-byte big-endian
dictionary id and, since no dictionary is supplied, fails with
`ErrDictionary` unless the id equals `adler32(nil) = 1`. Returns the
remaining stream. The resulting reader is never read from by `readFrames`
(body bytes are read from `rr` directly), so only this consumption is
observable. -/
def zlibNewReader (l : List Nat) : Except Err (List Nat) :=
  match l with
  | c :: f :: rest =>
    if c &&& 15 ≠ 8 ∨ (c * 256 + f) % 31 ≠ 0 then .error .zlibHeader
    else if f &&& 32 ≠ 0 then
      match rest with
      | d0 :: d1 :: d2 :: d3 :: rest' =>
        if ((d0 * 256 + d1) * 256 + d2) * 256 + d3 = 1 then .ok rest'
        else .error .zlibDictionary
      | [] | [_] | [_, _] | [_, _, _] => .error .unexpectedEOF
    else .ok rest
  | [] => .error .unexpectedEOF
  | [_] => .error .unexpectedEOF

/-- The frame-header phase of one `readFrames` iteration, after a valid frame
ID was found: for v2.2 a 3-byte plain big-endian size; otherwise
`binary.Read` of a 4-byte size plus 2-byte flags, synchsafe size decoding
for v2.4+, the encryption check, the effective unsynchronization flag
(`allUnsynch || frame flag`), the 4-byte data-length indicator (with
`frameSize -= 4` in `uint32` arithmetic and the dedicated
`unexpected eof in frame header` error on `io.EOF`), and the zlib header
consumption for a compressed frame. Returns
`(frameSize, frameUnsynch, rest)`. -/
def parseFrameHeader (h : Header) (rr : List Nat) : Except Err (Nat × Bool × List Nat) :=
  if h.major = 2 then
    match rr with
    | a :: b :: c :: rest => .ok ((a * 256 + b) * 256 + c, false, rest)
    | [] => .error .eof
    | [_] | [_, _] => .error .unexpectedEOF
  else
    match rr with
    | s0 :: s1 :: s2 :: s3 :: f0 :: f1 :: rest =>
      let size := ((s0 * 256 + s1) * 256 + s2) * 256 + s3
      let flags := f0 * 256 + f1
      let frameSize := if 4 ≤ h.major then synchsafe32 size else size
      if flags &&& 4 ≠ 0 then .error .encryption
      else
        let frameUnsynch := (h.flags &&& 128 != 0) || (flags &&& 2 != 0)
        let step1 : Except Err (Nat × List Nat) :=
          if flags &&& 1 ≠ 0 then
            match readFull 4 rest with
            | .error .eof => .error .frameHeaderEOF
            | .error e => .error e
            | .ok (_, rest') => .ok ((frameSize + 4294967292) % 4294967296, rest')
          else .ok (frameSize, rest)
        match step1 with
        | .error e => .error e
        | .ok (frameSize, rest) =>
          if flags &&& 8 ≠ 0 then
            match zlibNewReader rest with
            | .error e => .error e
            | .ok rest' => .ok (frameSize, frameUnsynch, rest')
          else .ok (frameSize, frameUnsynch, rest)
    | [] => .error .eof
    | [_] | [_, _] | [_, _, _] | [_, _, _, _] | [_, _, _, _, _] => .error .unexpectedEOF

/-- Go `j := strings.IndexNat(s, '\x00'); if j > -1 { s = s[:j] }`: truncate
at the first null byte. -/
def truncAtNul (s : GoStr) : GoStr := s.takeWhile (fun b => b ≠ 0)

/-- The v2.2 ID translation as placed in `readFrames`: only applied when the
raw frame ID has 3 characters, and only just before the decoded value is
stored into `frames`. -/
def translate22 (frameID : List Nat) : List Nat :=
  if frameID.length = 3 then
    match mapLookup v22Equiv frameID with
    | some newID => newID
    | none => frameID
  else frameID

/-- Result of the body phase of one `readFrames` iteration. -/
inductive BodyResult where
  | panicked
  | fail (e : Err)
  | cont (frames txxx : List (List Nat × GoStr)) (rr : List Nat)
deriving DecidableEq

/-- The body phase of one `readFrames` iteration, dispatching on the RAW
frame ID exactly as the Go code does: IDs starting with `'T'` read the body
and go to `decodeTXXX` (whose failure is only logged: the scan continues
with `txxx` unchanged) or to `decodeTextFrame` plus null truncation;
`APIC`/`PIC`/`PRIV` discard the body via `io.CopyN` (error ignored);
`COMM` reads the body, takes the encoding byte (`io.EOF` on an empty
body), drops the 3-byte language code, skips a terminated string ignoring
its result, and text-decodes the remainder; anything else stores the body
bytes verbatim. Stored keys pass through `translate22`. -/
def processBody (frames txxx : List (List Nat × GoStr)) (frameID : List Nat)
    (frameSize : Nat) (unsynch : Bool) (rr : List Nat) : BodyResult :=
  if frameID.head? = some 84 then
    match readFull frameSize rr with
    | .error e => .fail e
    | .ok (buf, rr) =>
      if frameID = asciiBytes "TXXX" then
        match decodeTXXX txxx buf unsynch with
        | none => .panicked
        | some (.error _) => .cont frames txxx rr
        | some (.ok txxx') => .cont frames txxx' rr
      else
        match buf with
        | [] => .panicked
        | b0 :: content =>
          match decodeTextFrame b0 content unsynch with
          | none => .panicked
          | some (.error e) => .fail e
          | some (.ok s) =>
            .cont (mapInsert frames (translate22 frameID) (truncAtNul s)) txxx rr
  else if frameID = asciiBytes "APIC" ∨ frameID = asciiBytes "PIC" ∨
      frameID = asciiBytes "PRIV" then
    .cont frames txxx (rr.drop frameSize)
  else if frameID = asciiBytes "COMM" then
    match readFull frameSize rr with
    | .error e => .fail e
    | .ok (buf, rr) =>
      match buf with
      | [] => .fail .eof
      | enc :: b =>
        let b := (readTerminatedString enc (b.drop 3)).2
        match decodeTextFrame enc b unsynch with
        | none => .panicked
        | some (.error e) => .fail e
        | some (.ok s) =>
          .cont (mapInsert frames (translate22 frameID) s) txxx rr
  else
    match readFull frameSize rr with
    | .error e => .fail e
    | .ok (buf, rr) =>
      .cont (mapInsert frames (translate22 frameID) buf) txxx rr

/-- The width of the frame ID window in `readFrames`: 3 bytes for v2.2,
4 bytes otherwise. -/
def idWidth (h : Header) : Nat := if h.major = 2 then 3 else 4

/-- The frame header width in `readFrames`: 6 bytes for v2.2, 10 otherwise. -/
def headerSize (h : Header) : Nat := if h.major = 2 then 6 else 10

/-- The `frameloop` of Go `readFrames`, with explicit fuel (structural
recursion; `readFrames` supplies more fuel than the loop can consume, since
every iteration reads at least the ID window). Returns the `frames` and
`txxx` maps as they stand when the loop exits, `some (.error e)` for an
error return, and `none` for a runtime panic. Loop structure: while
`pos < h.Size`, read an ID window (clean break on `io.EOF`, error on a
partial read), slide through padding via `seekFrame` (clean break on
exhaustion), break if `pos` reached `h.Size`, then parse the frame header
and body and advance `pos` by `frameSize + headerSize` in `uint32`
arithmetic. -/
def readFramesLoop (h : Header) :
    Nat → Nat → List (List Nat × GoStr) → List (List Nat × GoStr) → List Nat →
    Option (Except Err (List (List Nat × GoStr) × List (List Nat × GoStr)))
  | 0, _, _, _, _ => none
  | fuel + 1, pos, frames, txxx, rr =>
    if pos < h.size then
      match readFull (idWidth h) rr with
      | .error .eof => some (.ok (frames, txxx))
      | .error e => some (.error e)
      | .ok (frameID0, rr) =>
        match seekFrame h.size frameID0 rr pos with
        | none => some (.ok (frames, txxx))
        | some (frameID, rr, pos) =>
          if h.size ≤ pos then some (.ok (frames, txxx))
          else
            match parseFrameHeader h rr with
            | .error e => some (.error e)
            | .ok (frameSize, frameUnsynch, rr) =>
              match processBody frames txxx frameID frameSize frameUnsynch rr with
              | .panicked => none
              | .fail e => some (.error e)
              | .cont frames txxx rr =>
                readFramesLoop h fuel
                  ((pos + frameSize + headerSize h) % 4294967296) frames txxx rr
    else some (.ok (frames, txxx))

/-- Go `func readFrames(rr *bytes.Reader, h *Header) (map[string]string, error)`:
run the frame loop from position 0 with empty maps, then merge the
collected TXXX pairs into `frames` via `translateTXXXFrames`. -/
def readFrames (rr : List Nat) (h : Header) :
    Option (Except Err (List (List Nat × GoStr))) :=
  match readFramesLoop h (rr.length + 1) 0 [] [] rr with
  | none => none
  | some (.error e) => some (.error e)
  | some (.ok (frames, txxx)) => some (.ok (translateTXXXFrames frames txxx))

/-- The restriction of Go `unicode.IsPunct` to the ASCII range, on which it
is exact: true for the ASCII characters of Unicode category P, namely
`! " # % & ' ( ) * , - . / : ; ? @ [ \ ] _ { }`; in particular false for
`$ + < = > ^ | ~` (category S) and for space, letters and digits.
`unicode.IsPunct` itself — the full Unicode category-P table, a Go
standard-library external — enters the model only as the oracle parameter
of `parseMultiNumber`; this restriction instantiates that oracle at
concrete ASCII inputs. -/
def isPunctASCII (b : Nat) : Bool :=
  b ∈ [33, 34, 35, 37, 38, 39, 40, 41, 42, 44, 45, 46, 47,
       58, 59, 63, 64, 91, 92, 93, 95, 123, 125]

/-- ASCII decimal digit test. -/
def isDigit (b : Nat) : Bool := 48 ≤ b ∧ b ≤ 57

/-- Accumulator pass of Go `strings.FieldsFunc`: split into maximal runs of
non-separator characters, discarding separators and empty fields. -/
def fieldsFuncAux (p : Nat → Bool) : List Nat → List Nat → List (List Nat)
  | [], acc => if acc = [] then [] else [acc.reverse]
  | c :: rest, acc =>
    if p c then
      if acc = [] then fieldsFuncAux p rest []
      else acc.reverse :: fieldsFuncAux p rest []
    else fieldsFuncAux p rest (c :: acc)

/-- Go `strings.FieldsFunc(s, p)`. -/
def fieldsFunc (p : Nat → Bool) (s : List Nat) : List (List Nat) :=
  fieldsFuncAux p s []

/-- Numeric value of a list of ASCII digit bytes. -/
def digitsVal (l : List Nat) : Nat := l.foldl (fun acc d => acc * 10 + (d - 48)) 0

/-- Go `strconv.Atoi` on a 64-bit platform: an optional sign followed by a
non-empty run of decimal digits, failing (`none`) on an empty string, a
non-digit character, or a value outside the `int64` range. (On failure Go
also returns a clamped numeric value, but every caller in the source
discards the value when the error is non-nil.) -/
def goAtoi (s : List Nat) : Option Int :=
  match s with
  | [] => none
  | c :: rest =>
    let signDigits : Bool × List Nat :=
      if c = 45 then (true, rest) else if c = 43 then (false, rest) else (false, s)
    match signDigits with
    | (neg, digits) =>
      if digits = [] ∨ ¬ digits.all isDigit then none
      else
        let n := digitsVal digits
        if neg then
          if n ≤ 2 ^ 63 then some (-(n : Int)) else none
        else
          if n < 2 ^ 63 then some (n : Int) else none

/-- Go `func parseMultiNumber(s string) (n1, n2 int, err error)`: split on
punctuation with `strings.FieldsFunc(s, unicode.IsPunct)`, `Atoi` the first
token into `n1` and, when present, the second into `n2`; a missing token
leaves 0; an `Atoi` failure is returned as an error. `FieldsFunc` iterates
the string's runes, so `s` here is the value's rune sequence (identical to
its byte sequence for ASCII values), and the `isPunct` parameter stands for
the standard library's `unicode.IsPunct`, whose full Unicode category table
is external to this repository; theorems constrain the oracle only by
properties the real `unicode.IsPunct` has. -/
def parseMultiNumber (isPunct : Nat → Bool) (s : GoStr) : Except Err (Int × Int) :=
  let arr := fieldsFunc isPunct s
  match arr with
  | [] => .ok (0, 0)
  | t1 :: rest =>
    match goAtoi t1 with
    | none => .error .badNumber
    | some n1 =>
      match rest with
      | [] => .ok (n1, 0)
      | t2 :: _ =>
        match goAtoi t2 with
        | none => .error .badNumber
        | some n2 => .ok (n1, n2)

/-- The number-field part of Go `makeTags`: parse a non-empty `TPOS` value
into `(disc, TotalDiscs)` and a non-empty `TRCK` value into
`(track, TotalTracks)`, propagating `parseMultiNumber` errors; a missing
key yields the empty string, which is skipped. The `isPunct` oracle is
passed through to `parseMultiNumber` (frame values are byte strings;
`parseMultiNumber` views a value as its rune sequence — identical for
ASCII values, and `strconv.Atoi` rejects any token containing non-ASCII
bytes or runes alike). The subsequent `parseDate` step is not modelled:
every return path of `parseDate` yields a nil error, so it cannot affect
the error behaviour of `makeTags`. -/
def makeTagsNums (isPunct : Nat → Bool) (frames : List (List Nat × GoStr)) :
    Except Err (Int × Int × Int × Int) :=
  let tpos := (mapLookup frames (asciiBytes "TPOS")).getD []
  let step1 : Except Err (Int × Int) :=
    if tpos ≠ [] then parseMultiNumber isPunct tpos else .ok (0, 0)
  match step1 with
  | .error e => .error e
  | .ok (disc, totalDiscs) =>
    let trck := (mapLookup frames (asciiBytes "TRCK")).getD []
    let step2 : Except Err (Int × Int) :=
      if trck ≠ [] then parseMultiNumber isPunct trck else .ok (0, 0)
    match step2 with
    | .error e => .error e
    | .ok (track, totalTracks) => .ok (disc, totalDiscs, track, totalTracks)


/-- Index of the first adjacent `00 00` byte pair in a list (at ANY offset,
not only at even offsets), if one exists. -/
def firstPairIdx : List Nat → Option Nat
  | [] => none
  | [_] => none
  | a :: b :: rest =>
    if a = 0 ∧ b = 0 then some 0
    else (firstPairIdx (b :: rest)).map (· + 1)

/-- Bit-masking helper: `and` with a mask of `a` ones shifted up by `b`
extracts the corresponding bit field. -/
theorem land_mask (n a b : Nat) :
    n &&& ((2 ^ a - 1) * 2 ^ b) = n / 2 ^ b % 2 ^ a * 2 ^ b := by
  apply Nat.eq_of_testBit_eq
  intro i
  rw [Nat.testBit_and]
  rcases Nat.lt_or_ge i b with hib | hib
  · have h1 : ((2 ^ a - 1) * 2 ^ b).testBit i = false := by
      rw [← Nat.shiftLeft_eq, Nat.testBit_shiftLeft]
      simp [Nat.not_le.mpr hib]
    have h2 : (n / 2 ^ b % 2 ^ a * 2 ^ b).testBit i = false := by
      rw [← Nat.shiftLeft_eq, Nat.testBit_shiftLeft]
      simp [Nat.not_le.mpr hib]
    simp [h1, h2]
  · have hbi : b + (i - b) = i := by omega
    have h1 : ((2 ^ a - 1) * 2 ^ b).testBit i = decide (i - b < a) := by
      rw [← Nat.shiftLeft_eq, Nat.testBit_shiftLeft, Nat.testBit_two_pow_sub_one]
      simp [hib]
    have h2 : (n / 2 ^ b % 2 ^ a * 2 ^ b).testBit i = (decide (i - b < a) && n.testBit i) := by
      rw [← Nat.shiftLeft_eq, Nat.testBit_shiftLeft, Nat.testBit_mod_two_pow,
        ← Nat.shiftRight_eq_div_pow, Nat.testBit_shiftRight, hbi]
      simp [hib]
    rw [h1, h2]
    cases hn : n.testBit i <;> simp

/-- Disjoint-range `or` is addition: bits of `x` lie below position `k`,
bits of `y * 2 ^ k` lie at or above it. -/
theorem lor_eq_add_of_lt (x y k : Nat) (hx : x < 2 ^ k) :
    x ||| y * 2 ^ k = x + y * 2 ^ k := by
  apply Nat.eq_of_testBit_eq
  intro i
  rw [Nat.testBit_or]
  have hadd : x + y * 2 ^ k = 2 ^ k * y + x := by ring
  rw [hadd, Nat.testBit_mul_pow_two_add y hx i]
  rcases Nat.lt_or_ge i k with hik | hik
  · have h1 : (y * 2 ^ k).testBit i = false := by
      rw [← Nat.shiftLeft_eq, Nat.testBit_shiftLeft]
      simp [Nat.not_le.mpr hik]
    simp [h1, hik]
  · have h0 : x.testBit i = false :=
      Nat.testBit_eq_false_of_lt (Nat.lt_of_lt_of_le hx (Nat.pow_le_pow_right (by omega) hik))
    have h1 : (y * 2 ^ k).testBit i = y.testBit (i - k) := by
      rw [← Nat.shiftLeft_eq, Nat.testBit_shiftLeft]
      simp [hik]
    simp [h0, h1, Nat.not_lt.mpr hik]

/-- Arithmetic characterization of `synchsafe32`: it assembles the four
7-bit fields found at byte boundaries of its input. -/
theorem synchsafe32_arith (n : Nat) :
    synchsafe32 n = n % 128 + n / 256 % 128 * 128 + n / 65536 % 128 * 16384 +
      n / 16777216 % 128 * 2097152 := by
  have m0 : n &&& 0x7f = n % 128 := by
    have h := land_mask n 7 0
    norm_num at h
    exact h
  have m1 : n &&& 0x7f00 = n / 256 % 128 * 256 := by
    have h := land_mask n 7 8
    norm_num at h
    exact h
  have m2 : n &&& 0x7f0000 = n / 65536 % 128 * 65536 := by
    have h := land_mask n 7 16
    norm_num at h
    exact h
  have m3 : n &&& 0x7f000000 = n / 16777216 % 128 * 16777216 := by
    have h := land_mask n 7 24
    norm_num at h
    exact h
  have s1 : (n / 256 % 128 * 256) >>> 1 = n / 256 % 128 * 128 := by
    rw [Nat.shiftRight_eq_div_pow]
    omega
  have s2 : (n / 65536 % 128 * 65536) >>> 2 = n / 65536 % 128 * 16384 := by
    rw [Nat.shiftRight_eq_div_pow]
    omega
  have s3 : (n / 16777216 % 128 * 16777216) >>> 3 = n / 16777216 % 128 * 2097152 := by
    rw [Nat.shiftRight_eq_div_pow]
    omega
  unfold synchsafe32
  rw [m0, m1, m2, m3, s1, s2, s3]
  have o1 : n % 128 ||| n / 256 % 128 * 128 = n % 128 + n / 256 % 128 * 128 := by
    have h := lor_eq_add_of_lt (n % 128) (n / 256 % 128) 7 (by omega)
    norm_num at h
    exact h
  have o2 : n % 128 + n / 256 % 128 * 128 ||| n / 65536 % 128 * 16384 =
      n % 128 + n / 256 % 128 * 128 + n / 65536 % 128 * 16384 := by
    have h := lor_eq_add_of_lt (n % 128 + n / 256 % 128 * 128) (n / 65536 % 128) 14 (by omega)
    norm_num at h
    exact h
  have o3 : n % 128 + n / 256 % 128 * 128 + n / 65536 % 128 * 16384 |||
      n / 16777216 % 128 * 2097152 =
      n % 128 + n / 256 % 128 * 128 + n / 65536 % 128 * 16384 +
        n / 16777216 % 128 * 2097152 := by
    have h := lor_eq_add_of_lt
      (n % 128 + n / 256 % 128 * 128 + n / 65536 % 128 * 16384)
      (n / 16777216 % 128) 21 (by omega)
    norm_num at h
    exact h
  rw [o1, o2, o3]

/-- Reassembling the four 7-bit digits of a 4-byte big-endian number, each
digit shifted to a 7-bit position, recovers the 28-bit value. -/
theorem synchsafe_digits (d0 d1 d2 d3 : Nat) (h0 : d0 < 128) (h1 : d1 < 128)
    (h2 : d2 < 128) (h3 : d3 < 128) :
    (d3 * 16777216 + d2 * 65536 + d1 * 256 + d0) % 128 +
    (d3 * 16777216 + d2 * 65536 + d1 * 256 + d0) / 256 % 128 * 128 +
    (d3 * 16777216 + d2 * 65536 + d1 * 256 + d0) / 65536 % 128 * 16384 +
    (d3 * 16777216 + d2 * 65536 + d1 * 256 + d0) / 16777216 % 128 * 2097152 =
    d0 + d1 * 128 + d2 * 16384 + d3 * 2097152 := by omega

/-- C8: for every 28-bit value `v`, decoding the 4-byte synchsafe encoding of
`v` (each byte carrying 7 bits, bit 7 clear) with `synchsafe32` returns
`v`. -/
theorem c8_synchsafe_roundtrip (v : Nat) (hv : v < 2 ^ 28) :
    synchsafe32 (encodeSynchsafe v) = v := by
  rw [synchsafe32_arith]
  have hn : encodeSynchsafe v =
      v / 2097152 % 128 * 16777216 + v / 16384 % 128 * 65536 +
        v / 128 % 128 * 256 + v % 128 := by
    unfold encodeSynchsafe
    norm_num
  rw [hn]
  have h := synchsafe_digits (v % 128) (v / 128 % 128) (v / 16384 % 128)
    (v / 2097152 % 128) (by omega) (by omega) (by omega) (by omega)
  rw [h]
  have hdd1 : v / 16384 = v / 128 / 128 := by rw [Nat.div_div_eq_div_mul]
  have hdd2 : v / 2097152 = v / 16384 / 128 := by rw [Nat.div_div_eq_div_mul]
  omega

/-- Witness for C8 at the concrete value 1000 (the spec's own header-size
example). -/
theorem c8_synchsafe_roundtrip_witness :
    1000 < 2 ^ 28 ∧ synchsafe32 (encodeSynchsafe 1000) = 1000 :=
  ⟨by decide, c8_synchsafe_roundtrip 1000 (by decide)⟩

/-- C2 (code bug): the claim — and the Go function's own name and the
`$02 = UTF-16BE` comment — say a selector-`0x02` body is decoded as UTF-16
big-endian, first byte high. The code computes
`rune(buf[i]) | rune(buf[i+1])<<8`, putting the FIRST byte in the low bits:
the unit `00 48` yields U+4800 (UTF-8 `E4 A0 80`), not U+0048. -/
theorem c2_utf16be_failing_eval :
    decodeUTF16BErunes [0x00, 0x48] = some [0x4800] ∧
    decodeTextFrame 0x02 [0x00, 0x48] false = some (.ok [0xE4, 0xA0, 0x80]) ∧
    goStringOfRunes [0x0048] ≠ goStringOfRunes [0x4800] := by decide

/-- C10 (code bug): `decodeTextFrame` is not total. A selector-`0x01` body of
a single byte panics on `buf[:2]`, and UTF-16 content of odd length panics
on `buf[i+1]`; `none` is the embedded panic. -/
theorem c10_decode_text_frame_panics :
    decodeTextFrame 0x01 [0x41] false = none ∧
    decodeTextFrame 0x02 [0x41, 0x42, 0x43] false = none := by decide

/-- Reading exactly the first `n` bytes of a stream that starts with an
`n`-byte block succeeds and returns the block and the tail. -/
theorem readFull_append (n : Nat) (xs ys : List Nat) (h : xs.length = n) :
    readFull n (xs ++ ys) = .ok (xs, ys) := by
  unfold readFull
  have hlen : (xs ++ ys).length = n + ys.length := by simp [h]
  rcases Nat.eq_zero_or_pos n with hn | hn
  · subst hn
    have hx : xs = [] := List.length_eq_zero.mp h
    subst hx
    simp
  · have h1 : ¬ ((xs ++ ys).length = 0 ∧ 0 < n) := by
      intro hc
      omega
    have h2 : ¬ ((xs ++ ys).length < n) := by omega
    rw [if_neg h1, if_neg h2]
    have ht : (xs ++ ys).take n = xs := by
      rw [← h]
      exact List.take_left xs ys
    have hd : (xs ++ ys).drop n = ys := by
      rw [← h]
      exact List.drop_left xs ys
    rw [ht, hd]

/-- The recovery scan is a no-op when the window is already a valid frame
name. -/
theorem seekFrame_valid (hSize : Nat) (frameID rr : List Nat) (pos : Nat)
    (h : validFrameName frameID = true) :
    seekFrame hSize frameID rr pos = some (frameID, rr, pos) := by
  unfold seekFrame
  simp [h]

/-- `parseFrameHeader` on a v2.2 frame header: 3-byte plain big-endian size,
no flags, no effective unsynchronization. -/
theorem parseFrameHeader_v22 (h : Header) (hmaj : h.major = 2)
    (a b c : Nat) (rest : List Nat) :
    parseFrameHeader h (a :: b :: c :: rest) =
      .ok ((a * 256 + b) * 256 + c, false, rest) := by
  simp [parseFrameHeader, hmaj]

/-- `parseFrameHeader` on a v2.3 frame header whose flags clear the
encryption, data-length-indicator and compression bits: plain big-endian
size and the effective unsynchronization flag
`allUnsynch || frame unsynch bit`. -/
theorem parseFrameHeader_v23 (h : Header) (hmaj : h.major = 3)
    (s0 s1 s2 s3 f0 f1 : Nat) (rest : List Nat)
    (henc : (f0 * 256 + f1) &&& 4 = 0) (hdli : (f0 * 256 + f1) &&& 1 = 0)
    (hcomp : (f0 * 256 + f1) &&& 8 = 0) :
    parseFrameHeader h (s0 :: s1 :: s2 :: s3 :: f0 :: f1 :: rest) =
      .ok (((s0 * 256 + s1) * 256 + s2) * 256 + s3,
        (h.flags &&& 128 != 0) || ((f0 * 256 + f1) &&& 2 != 0), rest) := by
  simp [parseFrameHeader, hmaj, henc, hdli, hcomp]

/-- Reading from an exhausted stream yields `io.EOF`. -/
theorem readFull_nil (n : Nat) (hn : 0 < n) : readFull n [] = .error .eof := by
  simp [readFull, hn]

/-- A partial read (some bytes available, fewer than requested) yields
`io.ErrUnexpectedEOF`. -/
theorem readFull_short (n : Nat) (l : List Nat) (h0 : l ≠ [])
    (h : l.length < n) : readFull n l = .error .unexpectedEOF := by
  have hne : ¬ l.length = 0 := fun hc => h0 (List.length_eq_zero.mp hc)
  simp [readFull, hne, h]

/-- The ID window is 3 or 4 bytes wide, hence never empty. -/
theorem idWidth_pos (h : Header) : 0 < idWidth h := by
  unfold idWidth
  split <;> norm_num

/-- The recovery scan breaks the frame loop when the window is invalid and
the stream is exhausted. -/
theorem seekFrame_nil (hSize : Nat) (frameID : List Nat) (pos : Nat)
    (hv : validFrameName frameID = false) (hpos : pos < hSize) :
    seekFrame hSize frameID [] pos = none := by
  unfold seekFrame
  simp [hv, hpos]

/-- `parseFrameHeader` on a non-v2.2 stream holding fewer than the 6 bytes
of size and flags: `binary.Read` yields `io.EOF` on an empty stream and
`io.ErrUnexpectedEOF` on a partial one, both returned as errors. -/
theorem parseFrameHeader_short (h : Header) (hmaj : ¬ h.major = 2)
    (rest : List Nat) (hlen : rest.length < 6) :
    parseFrameHeader h rest =
      .error (if rest = [] then Err.eof else Err.unexpectedEOF) := by
  rcases rest with _ | ⟨a, _ | ⟨b, _ | ⟨c, _ | ⟨d, _ | ⟨e, _ | ⟨f, tl⟩⟩⟩⟩⟩⟩
  · simp [parseFrameHeader, hmaj]
  · simp [parseFrameHeader, hmaj]
  · simp [parseFrameHeader, hmaj]
  · simp [parseFrameHeader, hmaj]
  · simp [parseFrameHeader, hmaj]
  · simp [parseFrameHeader, hmaj]
  · simp at hlen
    omega

/-- One frame-loop iteration on a v2.3 frame with a valid `T` ID and intact
size/flags whose declared body extends past the end of the stream: the
body read fails (`io.EOF` on an empty remainder, `io.ErrUnexpectedEOF` on
a partial one) and the scan stops with that error. -/
theorem step_v23_body_trunc (h : Header) (hmaj : h.major = 3) (fuel pos : Nat)
    (frames txxx : List (List Nat × GoStr)) (id : List Nat)
    (s0 s1 s2 s3 f0 f1 : Nat) (tail : List Nat)
    (hid4 : id.length = 4) (hidv : validFrameName id = true)
    (hidT : id.head? = some 84)
    (henc : (f0 * 256 + f1) &&& 4 = 0) (hdli : (f0 * 256 + f1) &&& 1 = 0)
    (hcomp : (f0 * 256 + f1) &&& 8 = 0) (hpos : pos < h.size)
    (hlt : tail.length < ((s0 * 256 + s1) * 256 + s2) * 256 + s3) :
    readFramesLoop h (fuel + 1) pos frames txxx
      (id ++ s0 :: s1 :: s2 :: s3 :: f0 :: f1 :: tail) =
    some (.error (if tail = [] then Err.eof else Err.unexpectedEOF)) := by
  have hr1 : readFull (idWidth h)
      (id ++ s0 :: s1 :: s2 :: s3 :: f0 :: f1 :: tail) =
      .ok (id, s0 :: s1 :: s2 :: s3 :: f0 :: f1 :: tail) :=
    readFull_append _ _ _ (by rw [hid4]; simp [idWidth, hmaj])
  have hr2 : readFull (((s0 * 256 + s1) * 256 + s2) * 256 + s3) tail =
      .error (if tail = [] then Err.eof else Err.unexpectedEOF) := by
    rcases ht : tail with _ | ⟨x, xs⟩
    · simp only [if_pos rfl]
      exact readFull_nil _ (by simpa [ht] using hlt)
    · simp only [if_neg (by simp : ¬ (x :: xs : List Nat) = [])]
      exact readFull_short _ _ (by simp) (by simpa [ht] using hlt)
  simp [readFramesLoop, hpos, hr1, seekFrame_valid _ _ _ _ hidv,
    Nat.not_le.mpr hpos,
    parseFrameHeader_v23 h hmaj s0 s1 s2 s3 f0 f1 _ henc hdli hcomp,
    processBody, hidT, hr2]

/-- One frame-loop iteration on a v2.3 `APIC` frame: the body is discarded
via `io.CopyN` with the error ignored, so even a body truncated short of
the declared size produces no error — the loop continues on whatever
remains. -/
theorem step_v23_apic_skip (h : Header) (hmaj : h.major = 3) (fuel pos : Nat)
    (frames txxx : List (List Nat × GoStr)) (s0 s1 s2 s3 f0 f1 : Nat)
    (tail : List Nat)
    (henc : (f0 * 256 + f1) &&& 4 = 0) (hdli : (f0 * 256 + f1) &&& 1 = 0)
    (hcomp : (f0 * 256 + f1) &&& 8 = 0) (hpos : pos < h.size) :
    readFramesLoop h (fuel + 1) pos frames txxx
      (asciiBytes "APIC" ++ s0 :: s1 :: s2 :: s3 :: f0 :: f1 :: tail) =
    readFramesLoop h fuel
      ((pos + (((s0 * 256 + s1) * 256 + s2) * 256 + s3) + 10) % 4294967296)
      frames txxx (tail.drop (((s0 * 256 + s1) * 256 + s2) * 256 + s3)) := by
  have hidv : validFrameName (asciiBytes "APIC") = true := by decide
  have hT : ¬ (asciiBytes "APIC").head? = some 84 := by decide
  have hP : asciiBytes "APIC" = asciiBytes "APIC" ∨
      asciiBytes "APIC" = asciiBytes "PIC" ∨
      asciiBytes "APIC" = asciiBytes "PRIV" := by decide
  have hs : headerSize h = 10 := by simp [headerSize, hmaj]
  have hr1 : readFull (idWidth h)
      (asciiBytes "APIC" ++ s0 :: s1 :: s2 :: s3 :: f0 :: f1 :: tail) =
      .ok (asciiBytes "APIC", s0 :: s1 :: s2 :: s3 :: f0 :: f1 :: tail) :=
    readFull_append _ _ _ (by simp [idWidth, hmaj]; decide)
  simp [readFramesLoop, hpos, hr1, seekFrame_valid _ _ _ _ hidv,
    Nat.not_le.mpr hpos,
    parseFrameHeader_v23 h hmaj s0 s1 s2 s3 f0 f1 _ henc hdli hcomp,
    processBody, hT, hP, hs]

/-- C6, amended: the frame scan terminates cleanly only when the byte source
is exhausted with NO byte available at a new-frame attempt (`io.EOF`), or
when the padding-recovery scan runs out of bytes; a PARTIAL ID-width window
(at least one byte, fewer than the window width) is returned as an
`io.ErrUnexpectedEOF` error. After a valid ID, a truncated size/flags
field is an error, and so is a truncated body of a frame whose body is
read (an ID starting with `T`); the body of a skipped `APIC` frame,
however, is discarded with read errors ignored. Conjuncts: (1) clean end
on an empty source; (2) error on a partial ID window; (3) clean end when
an invalid window is read and recovery exhausts the source; (4) error on a
truncated size/flags field after a valid 4-character ID; (5) error on a
truncated body of a `T`-frame; (6) no error on an `APIC` frame regardless
of where its declared body ends. -/
theorem c6_scan_termination :
    (∀ (h : Header) (fuel pos : Nat) (frames txxx : List (List Nat × GoStr)),
      pos < h.size →
      readFramesLoop h (fuel + 1) pos frames txxx [] = some (.ok (frames, txxx))) ∧
    (∀ (h : Header) (fuel pos : Nat) (frames txxx : List (List Nat × GoStr))
      (rr : List Nat), pos < h.size → rr ≠ [] → rr.length < idWidth h →
      readFramesLoop h (fuel + 1) pos frames txxx rr = some (.error .unexpectedEOF)) ∧
    (∀ (h : Header) (fuel pos : Nat) (frames txxx : List (List Nat × GoStr))
      (rr : List Nat), pos < h.size → rr.length = idWidth h →
      validFrameName rr = false →
      readFramesLoop h (fuel + 1) pos frames txxx rr = some (.ok (frames, txxx))) ∧
    (∀ (h : Header) (fuel pos : Nat) (frames txxx : List (List Nat × GoStr))
      (id rest : List Nat), ¬ h.major = 2 → id.length = 4 →
      validFrameName id = true → pos < h.size → rest.length < 6 →
      readFramesLoop h (fuel + 1) pos frames txxx (id ++ rest) =
        some (.error (if rest = [] then Err.eof else Err.unexpectedEOF))) ∧
    (∀ (h : Header) (fuel pos : Nat) (frames txxx : List (List Nat × GoStr))
      (id : List Nat) (s0 s1 s2 s3 f0 f1 : Nat) (tail : List Nat),
      h.major = 3 → id.length = 4 → validFrameName id = true →
      id.head? = some 84 →
      (f0 * 256 + f1) &&& 4 = 0 → (f0 * 256 + f1) &&& 1 = 0 →
      (f0 * 256 + f1) &&& 8 = 0 → pos < h.size →
      tail.length < ((s0 * 256 + s1) * 256 + s2) * 256 + s3 →
      readFramesLoop h (fuel + 1) pos frames txxx
        (id ++ s0 :: s1 :: s2 :: s3 :: f0 :: f1 :: tail) =
      some (.error (if tail = [] then Err.eof else Err.unexpectedEOF))) ∧
    (∀ (h : Header) (fuel pos : Nat) (frames txxx : List (List Nat × GoStr))
      (s0 s1 s2 s3 f0 f1 : Nat) (tail : List Nat),
      h.major = 3 →
      (f0 * 256 + f1) &&& 4 = 0 → (f0 * 256 + f1) &&& 1 = 0 →
      (f0 * 256 + f1) &&& 8 = 0 → pos < h.size →
      readFramesLoop h (fuel + 1) pos frames txxx
        (asciiBytes "APIC" ++ s0 :: s1 :: s2 :: s3 :: f0 :: f1 :: tail) =
      readFramesLoop h fuel
        ((pos + (((s0 * 256 + s1) * 256 + s2) * 256 + s3) + 10) % 4294967296)
        frames txxx (tail.drop (((s0 * 256 + s1) * 256 + s2) * 256 + s3))) := by
  refine ⟨?_, ?_, ?_, ?_, ?_, ?_⟩
  · intro h fuel pos frames txxx hpos
    simp only [readFramesLoop]
    rw [if_pos hpos, readFull_nil _ (idWidth_pos h)]
  · intro h fuel pos frames txxx rr hpos hne hlen
    simp only [readFramesLoop]
    rw [if_pos hpos, readFull_short _ _ hne hlen]
  · intro h fuel pos frames txxx rr hpos hlen hv
    simp only [readFramesLoop]
    rw [if_pos hpos]
    have hr : readFull (idWidth h) rr = .ok (rr, []) := by
      have := readFull_append (idWidth h) rr [] hlen
      simpa using this
    rw [hr]
    simp [seekFrame_nil _ _ _ hv hpos]
  · intro h fuel pos frames txxx id rest hmaj hid4 hidv hpos hlen
    have hr1 : readFull (idWidth h) (id ++ rest) = .ok (id, rest) :=
      readFull_append _ _ _ (by rw [hid4]; simp [idWidth, hmaj])
    simp [readFramesLoop, hpos, hr1, seekFrame_valid _ _ _ _ hidv,
      Nat.not_le.mpr hpos, parseFrameHeader_short h hmaj rest hlen]
  · intro h fuel pos frames txxx id s0 s1 s2 s3 f0 f1 tail hmaj hid4 hidv hidT
      henc hdli hcomp hpos hlt
    exact step_v23_body_trunc h hmaj fuel pos frames txxx id s0 s1 s2 s3 f0 f1
      tail hid4 hidv hidT henc hdli hcomp hpos hlt
  · intro h fuel pos frames txxx s0 s1 s2 s3 f0 f1 tail hmaj henc hdli hcomp hpos
    exact step_v23_apic_skip h hmaj fuel pos frames txxx s0 s1 s2 s3 f0 f1 tail
      henc hdli hcomp hpos

/-- Witness for C6 at concrete inputs: an empty v2.3 tag body ends cleanly;
a 1-byte body (partial 4-byte ID window) is an error; an all-zero 4-byte
window exhausts recovery and ends cleanly; `TIT2` followed by only 2 bytes
of size/flags is an error; `TIT2` with an intact header but a 2-byte body
against a declared size of 5 is an error; `APIC` with the same truncation
continues without error. -/
theorem c6_scan_termination_witness :
    readFramesLoop ⟨3, 0, 10⟩ 1 0 [] [] [] = some (.ok ([], [])) ∧
    readFramesLoop ⟨3, 0, 10⟩ 1 0 [] [] [65] = some (.error .unexpectedEOF) ∧
    readFramesLoop ⟨3, 0, 10⟩ 1 0 [] [] [0, 0, 0, 0] = some (.ok ([], [])) ∧
    readFramesLoop ⟨3, 0, 10⟩ 1 0 [] [] (asciiBytes "TIT2" ++ [0, 0]) =
      some (.error .unexpectedEOF) ∧
    readFramesLoop ⟨3, 0, 30⟩ 1 0 [] []
      (asciiBytes "TIT2" ++ 0 :: 0 :: 0 :: 5 :: 0 :: 0 :: [1, 2]) =
      some (.error .unexpectedEOF) ∧
    readFramesLoop ⟨3, 0, 30⟩ 2 0 [] []
      (asciiBytes "APIC" ++ 0 :: 0 :: 0 :: 5 :: 0 :: 0 :: [1, 2]) =
      readFramesLoop ⟨3, 0, 30⟩ 1 15 [] [] [] := by
  refine ⟨?_, ?_, ?_, ?_, ?_, ?_⟩
  · exact c6_scan_termination.1 ⟨3, 0, 10⟩ 0 0 [] [] (by decide)
  · exact c6_scan_termination.2.1 ⟨3, 0, 10⟩ 0 0 [] [] [65] (by decide) (by decide)
      (by decide)
  · exact c6_scan_termination.2.2.1 ⟨3, 0, 10⟩ 0 0 [] [] [0, 0, 0, 0] (by decide)
      (by decide) (by decide)
  · have h := c6_scan_termination.2.2.2.1 ⟨3, 0, 10⟩ 0 0 [] [] (asciiBytes "TIT2")
      [0, 0] (by decide) (by decide) (by decide) (by decide) (by decide)
    simpa using h
  · have h := c6_scan_termination.2.2.2.2.1 ⟨3, 0, 30⟩ 0 0 [] []
      (asciiBytes "TIT2") 0 0 0 5 0 0 [1, 2] rfl (by decide) (by decide)
      (by decide) (by decide) (by decide) (by decide) (by decide) (by decide)
    simpa using h
  · have h := c6_scan_termination.2.2.2.2.2 ⟨3, 0, 30⟩ 1 0 [] [] 0 0 0 5 0 0
      [1, 2] rfl (by decide) (by decide) (by decide) (by decide)
    simpa using h

/-- C6 counterexample: the claim says exhaustion while attempting a new frame
— including when only PART of an ID-width window could be read — ends the
scan without error; but on a v2.3 tag body of a single byte `readFrames`
returns the `io.ErrUnexpectedEOF` error instead of the frames collected so
far. -/
theorem c6_counterexample :
    readFrames [65] ⟨3, 0, 10⟩ = some (.error .unexpectedEOF) := by decide

/-- One frame-loop iteration on a v2.3 text frame (ID starting `T`, not
`TXXX`, benign flags) whose body decodes successfully: the decoded string,
truncated at the first null, is stored under the (4-character, untranslated)
ID and the loop continues after the frame. -/
theorem step_v23_text (h : Header) (hmaj : h.major = 3) (fuel pos : Nat)
    (frames txxx : List (List Nat × GoStr)) (id : List Nat)
    (s0 s1 s2 s3 f0 f1 b0 : Nat) (content rest : List Nat)
    (hid4 : id.length = 4) (hidv : validFrameName id = true)
    (hidT : id.head? = some 84) (hidX : id ≠ asciiBytes "TXXX")
    (henc : (f0 * 256 + f1) &&& 4 = 0) (hdli : (f0 * 256 + f1) &&& 1 = 0)
    (hcomp : (f0 * 256 + f1) &&& 8 = 0) (hpos : pos < h.size)
    (hsz : ((s0 * 256 + s1) * 256 + s2) * 256 + s3 = content.length + 1)
    (s : GoStr)
    (hdec : decodeTextFrame b0 content
      ((h.flags &&& 128 != 0) || ((f0 * 256 + f1) &&& 2 != 0)) = some (.ok s)) :
    readFramesLoop h (fuel + 1) pos frames txxx
      (id ++ s0 :: s1 :: s2 :: s3 :: f0 :: f1 :: b0 :: (content ++ rest)) =
    readFramesLoop h fuel ((pos + (content.length + 1) + 10) % 4294967296)
      (mapInsert frames id (truncAtNul s)) txxx rest := by
  have hw : idWidth h = 4 := by simp [idWidth, hmaj]
  have hs : headerSize h = 10 := by simp [headerSize, hmaj]
  have htr : translate22 id = id := by simp [translate22, hid4]
  have hr1 : readFull (idWidth h)
      (id ++ s0 :: s1 :: s2 :: s3 :: f0 :: f1 :: b0 :: (content ++ rest)) =
      .ok (id, s0 :: s1 :: s2 :: s3 :: f0 :: f1 :: b0 :: (content ++ rest)) :=
    readFull_append _ _ _ (by rw [hid4, hw])
  have hr2 : readFull (content.length + 1) (b0 :: (content ++ rest)) =
      .ok (b0 :: content, rest) := by
    have := readFull_append (content.length + 1) (b0 :: content) rest (by simp)
    simpa using this
  simp [readFramesLoop, hpos, hr1, seekFrame_valid _ _ _ _ hidv,
    Nat.not_le.mpr hpos,
    parseFrameHeader_v23 h hmaj s0 s1 s2 s3 f0 f1 _ henc hdli hcomp,
    hsz, processBody, hidT, hidX, hr2, hdec, htr, hs]

/-- One frame-loop iteration on a v2.3 text frame whose body decoder fails:
the whole scan stops with that error. -/
theorem step_v23_text_err (h : Header) (hmaj : h.major = 3) (fuel pos : Nat)
    (frames txxx : List (List Nat × GoStr)) (id : List Nat)
    (s0 s1 s2 s3 f0 f1 b0 : Nat) (content rest : List Nat)
    (hid4 : id.length = 4) (hidv : validFrameName id = true)
    (hidT : id.head? = some 84) (hidX : id ≠ asciiBytes "TXXX")
    (henc : (f0 * 256 + f1) &&& 4 = 0) (hdli : (f0 * 256 + f1) &&& 1 = 0)
    (hcomp : (f0 * 256 + f1) &&& 8 = 0) (hpos : pos < h.size)
    (hsz : ((s0 * 256 + s1) * 256 + s2) * 256 + s3 = content.length + 1)
    (e : Err)
    (hdec : decodeTextFrame b0 content
      ((h.flags &&& 128 != 0) || ((f0 * 256 + f1) &&& 2 != 0)) = some (.error e)) :
    readFramesLoop h (fuel + 1) pos frames txxx
      (id ++ s0 :: s1 :: s2 :: s3 :: f0 :: f1 :: b0 :: (content ++ rest)) =
    some (.error e) := by
  have hr1 : readFull (idWidth h)
      (id ++ s0 :: s1 :: s2 :: s3 :: f0 :: f1 :: b0 :: (content ++ rest)) =
      .ok (id, s0 :: s1 :: s2 :: s3 :: f0 :: f1 :: b0 :: (content ++ rest)) :=
    readFull_append _ _ _ (by rw [hid4]; simp [idWidth, hmaj])
  have hr2 : readFull (content.length + 1) (b0 :: (content ++ rest)) =
      .ok (b0 :: content, rest) := by
    have := readFull_append (content.length + 1) (b0 :: content) rest (by simp)
    simpa using this
  simp [readFramesLoop, hpos, hr1, seekFrame_valid _ _ _ _ hidv,
    Nat.not_le.mpr hpos,
    parseFrameHeader_v23 h hmaj s0 s1 s2 s3 f0 f1 _ henc hdli hcomp,
    hsz, processBody, hidT, hidX, hr2, hdec]

/-- One frame-loop iteration on a v2.3 `TXXX` frame whose body decoder
fails: the error is only logged — the scan continues after the frame with
both the `frames` and `txxx` maps unchanged. -/
theorem step_v23_txxx_err (h : Header) (hmaj : h.major = 3) (fuel pos : Nat)
    (frames txxx : List (List Nat × GoStr))
    (s0 s1 s2 s3 f0 f1 : Nat) (body rest : List Nat)
    (henc : (f0 * 256 + f1) &&& 4 = 0) (hdli : (f0 * 256 + f1) &&& 1 = 0)
    (hcomp : (f0 * 256 + f1) &&& 8 = 0) (hpos : pos < h.size)
    (hsz : ((s0 * 256 + s1) * 256 + s2) * 256 + s3 = body.length)
    (e : Err)
    (hdec : decodeTXXX txxx body
      ((h.flags &&& 128 != 0) || ((f0 * 256 + f1) &&& 2 != 0)) = some (.error e)) :
    readFramesLoop h (fuel + 1) pos frames txxx
      (asciiBytes "TXXX" ++ s0 :: s1 :: s2 :: s3 :: f0 :: f1 :: (body ++ rest)) =
    readFramesLoop h fuel ((pos + body.length + 10) % 4294967296) frames txxx rest := by
  have hs : headerSize h = 10 := by simp [headerSize, hmaj]
  have hr1 : readFull (idWidth h)
      (asciiBytes "TXXX" ++ s0 :: s1 :: s2 :: s3 :: f0 :: f1 :: (body ++ rest)) =
      .ok (asciiBytes "TXXX", s0 :: s1 :: s2 :: s3 :: f0 :: f1 :: (body ++ rest)) :=
    readFull_append _ _ _ (by simp [idWidth, hmaj]; decide)
  have hr2 : readFull body.length (body ++ rest) = .ok (body, rest) :=
    readFull_append _ _ _ rfl
  have hidv : validFrameName (asciiBytes "TXXX") = true := by decide
  have hidT : (asciiBytes "TXXX").head? = some 84 := by decide
  simp [readFramesLoop, hpos, hr1, seekFrame_valid _ _ _ _ hidv,
    Nat.not_le.mpr hpos,
    parseFrameHeader_v23 h hmaj s0 s1 s2 s3 f0 f1 _ henc hdli hcomp,
    hsz, processBody, hidT, hr2, hdec, hs]

/-- One frame-loop iteration on a v2.2 frame whose raw 3-character ID starts
with `T`: it is dispatched to the plain-text decoder with the
unsynchronization flag hard-coded `false` (the v2.2 path never consults the
global header flag), and stored under the `translate22`-mapped ID. -/
theorem step_v22_text (h : Header) (hmaj : h.major = 2) (fuel pos : Nat)
    (frames txxx : List (List Nat × GoStr)) (id : List Nat)
    (a b c b0 : Nat) (content rest : List Nat)
    (hid3 : id.length = 3) (hidv : validFrameName id = true)
    (hidT : id.head? = some 84) (hpos : pos < h.size)
    (hsz : (a * 256 + b) * 256 + c = content.length + 1)
    (s : GoStr)
    (hdec : decodeTextFrame b0 content false = some (.ok s)) :
    readFramesLoop h (fuel + 1) pos frames txxx
      (id ++ a :: b :: c :: b0 :: (content ++ rest)) =
    readFramesLoop h fuel ((pos + (content.length + 1) + 6) % 4294967296)
      (mapInsert frames (translate22 id) (truncAtNul s)) txxx rest := by
  have hs : headerSize h = 6 := by simp [headerSize, hmaj]
  have hidX : id ≠ asciiBytes "TXXX" := by
    intro he
    rw [he] at hid3
    exact absurd hid3 (by decide)
  have hr1 : readFull (idWidth h) (id ++ a :: b :: c :: b0 :: (content ++ rest)) =
      .ok (id, a :: b :: c :: b0 :: (content ++ rest)) :=
    readFull_append _ _ _ (by rw [hid3]; simp [idWidth, hmaj])
  have hr2 : readFull (content.length + 1) (b0 :: (content ++ rest)) =
      .ok (b0 :: content, rest) := by
    have := readFull_append (content.length + 1) (b0 :: content) rest (by simp)
    simpa using this
  simp [readFramesLoop, hpos, hr1, seekFrame_valid _ _ _ _ hidv,
    Nat.not_le.mpr hpos, parseFrameHeader_v22 h hmaj,
    hsz, processBody, hidT, hidX, hr2, hdec, hs]

/-- One frame-loop iteration on a v2.2 frame whose raw ID matches no
dispatch case: the body bytes are stored verbatim under the
`translate22`-mapped ID. -/
theorem step_v22_default (h : Header) (hmaj : h.major = 2) (fuel pos : Nat)
    (frames txxx : List (List Nat × GoStr)) (id : List Nat)
    (a b c : Nat) (body rest : List Nat)
    (hid3 : id.length = 3) (hidv : validFrameName id = true)
    (hidT : ¬ id.head? = some 84)
    (hidP : ¬ (id = asciiBytes "APIC" ∨ id = asciiBytes "PIC" ∨ id = asciiBytes "PRIV"))
    (hidC : id ≠ asciiBytes "COMM") (hpos : pos < h.size)
    (hsz : (a * 256 + b) * 256 + c = body.length) :
    readFramesLoop h (fuel + 1) pos frames txxx
      (id ++ a :: b :: c :: (body ++ rest)) =
    readFramesLoop h fuel ((pos + body.length + 6) % 4294967296)
      (mapInsert frames (translate22 id) body) txxx rest := by
  have hs : headerSize h = 6 := by simp [headerSize, hmaj]
  have hr1 : readFull (idWidth h) (id ++ a :: b :: c :: (body ++ rest)) =
      .ok (id, a :: b :: c :: (body ++ rest)) :=
    readFull_append _ _ _ (by rw [hid3]; simp [idWidth, hmaj])
  have hr2 : readFull body.length (body ++ rest) = .ok (body, rest) :=
    readFull_append _ _ _ rfl
  simp [readFramesLoop, hpos, hr1, seekFrame_valid _ _ _ _ hidv,
    Nat.not_le.mpr hpos, parseFrameHeader_v22 h hmaj,
    hsz, processBody, hidT, hidP, hidC, hr2, hs]

/-- One frame-loop iteration on a v2.3 `COMM` frame whose comment text fails
to decode (after the encoding byte, the discarded 3-byte language code and
the skipped terminated description): the whole scan stops with that
error. -/
theorem step_v23_comm_err (h : Header) (hmaj : h.major = 3) (fuel pos : Nat)
    (frames txxx : List (List Nat × GoStr))
    (s0 s1 s2 s3 f0 f1 enc : Nat) (b rest : List Nat) (e : Err)
    (henc : (f0 * 256 + f1) &&& 4 = 0) (hdli : (f0 * 256 + f1) &&& 1 = 0)
    (hcomp : (f0 * 256 + f1) &&& 8 = 0) (hpos : pos < h.size)
    (hsz : ((s0 * 256 + s1) * 256 + s2) * 256 + s3 = b.length + 1)
    (hdec : decodeTextFrame enc (readTerminatedString enc (b.drop 3)).2
      ((h.flags &&& 128 != 0) || ((f0 * 256 + f1) &&& 2 != 0)) = some (.error e)) :
    readFramesLoop h (fuel + 1) pos frames txxx
      (asciiBytes "COMM" ++ s0 :: s1 :: s2 :: s3 :: f0 :: f1 :: enc :: (b ++ rest)) =
    some (.error e) := by
  have hidv : validFrameName (asciiBytes "COMM") = true := by decide
  have hT : ¬ (asciiBytes "COMM").head? = some 84 := by decide
  have hP : ¬ (asciiBytes "COMM" = asciiBytes "APIC" ∨
      asciiBytes "COMM" = asciiBytes "PIC" ∨
      asciiBytes "COMM" = asciiBytes "PRIV") := by decide
  have hr1 : readFull (idWidth h)
      (asciiBytes "COMM" ++ s0 :: s1 :: s2 :: s3 :: f0 :: f1 :: enc :: (b ++ rest)) =
      .ok (asciiBytes "COMM",
        s0 :: s1 :: s2 :: s3 :: f0 :: f1 :: enc :: (b ++ rest)) :=
    readFull_append _ _ _ (by simp [idWidth, hmaj]; decide)
  have hr2 : readFull (b.length + 1) (enc :: (b ++ rest)) = .ok (enc :: b, rest) := by
    have := readFull_append (b.length + 1) (enc :: b) rest (by simp)
    simpa using this
  simp [readFramesLoop, hpos, hr1, seekFrame_valid _ _ _ _ hidv,
    Nat.not_le.mpr hpos,
    parseFrameHeader_v23 h hmaj s0 s1 s2 s3 f0 f1 _ henc hdli hcomp,
    hsz, processBody, hT, hP, hr2, hdec]

/-- One frame-loop iteration on a v2.2 `PIC` frame: the raw 3-character ID
matches the `APIC`/`PIC`/`PRIV` skip case directly, so the body is
discarded (`io.CopyN` to a discard sink, error ignored) and nothing is
stored in either map. -/
theorem step_v22_pic (h : Header) (hmaj : h.major = 2) (fuel pos : Nat)
    (frames txxx : List (List Nat × GoStr)) (a b c : Nat) (tail : List Nat)
    (hpos : pos < h.size) :
    readFramesLoop h (fuel + 1) pos frames txxx
      (asciiBytes "PIC" ++ a :: b :: c :: tail) =
    readFramesLoop h fuel ((pos + ((a * 256 + b) * 256 + c) + 6) % 4294967296)
      frames txxx (tail.drop ((a * 256 + b) * 256 + c)) := by
  have hidv : validFrameName (asciiBytes "PIC") = true := by decide
  have hT : ¬ (asciiBytes "PIC").head? = some 84 := by decide
  have hP : asciiBytes "PIC" = asciiBytes "APIC" ∨
      asciiBytes "PIC" = asciiBytes "PIC" ∨
      asciiBytes "PIC" = asciiBytes "PRIV" := by decide
  have hs : headerSize h = 6 := by simp [headerSize, hmaj]
  have hr1 : readFull (idWidth h) (asciiBytes "PIC" ++ a :: b :: c :: tail) =
      .ok (asciiBytes "PIC", a :: b :: c :: tail) :=
    readFull_append _ _ _ (by simp [idWidth, hmaj]; decide)
  simp [readFramesLoop, hpos, hr1, seekFrame_valid _ _ _ _ hidv,
    Nat.not_le.mpr hpos, parseFrameHeader_v22 h hmaj, processBody, hT, hP, hs]

/-- `parseFrameHeader` on a v2.4 frame header whose flags clear the
encryption, data-length-indicator and compression bits: the 4-byte size is
decoded through `synchsafe32`, and the effective unsynchronization flag is
`allUnsynch || frame unsynch bit`. -/
theorem parseFrameHeader_v24 (h : Header) (hmaj : h.major = 4)
    (s0 s1 s2 s3 f0 f1 : Nat) (rest : List Nat)
    (henc : (f0 * 256 + f1) &&& 4 = 0) (hdli : (f0 * 256 + f1) &&& 1 = 0)
    (hcomp : (f0 * 256 + f1) &&& 8 = 0) :
    parseFrameHeader h (s0 :: s1 :: s2 :: s3 :: f0 :: f1 :: rest) =
      .ok (synchsafe32 (((s0 * 256 + s1) * 256 + s2) * 256 + s3),
        (h.flags &&& 128 != 0) || ((f0 * 256 + f1) &&& 2 != 0), rest) := by
  simp [parseFrameHeader, hmaj, henc, hdli, hcomp]

/-- One frame-loop iteration on a v2.4 text frame (ID starting `T`, not
`TXXX`, benign flags): the synchsafe-decoded size governs the body read,
the body decoder receives the global-OR-frame unsynchronization flag, and
the decoded string is stored under the 4-character ID. -/
theorem step_v24_text (h : Header) (hmaj : h.major = 4) (fuel pos : Nat)
    (frames txxx : List (List Nat × GoStr)) (id : List Nat)
    (s0 s1 s2 s3 f0 f1 b0 : Nat) (content rest : List Nat)
    (hid4 : id.length = 4) (hidv : validFrameName id = true)
    (hidT : id.head? = some 84) (hidX : id ≠ asciiBytes "TXXX")
    (henc : (f0 * 256 + f1) &&& 4 = 0) (hdli : (f0 * 256 + f1) &&& 1 = 0)
    (hcomp : (f0 * 256 + f1) &&& 8 = 0) (hpos : pos < h.size)
    (hsz : synchsafe32 (((s0 * 256 + s1) * 256 + s2) * 256 + s3) = content.length + 1)
    (s : GoStr)
    (hdec : decodeTextFrame b0 content
      ((h.flags &&& 128 != 0) || ((f0 * 256 + f1) &&& 2 != 0)) = some (.ok s)) :
    readFramesLoop h (fuel + 1) pos frames txxx
      (id ++ s0 :: s1 :: s2 :: s3 :: f0 :: f1 :: b0 :: (content ++ rest)) =
    readFramesLoop h fuel ((pos + (content.length + 1) + 10) % 4294967296)
      (mapInsert frames id (truncAtNul s)) txxx rest := by
  have hw : idWidth h = 4 := by simp [idWidth, hmaj]
  have hs : headerSize h = 10 := by simp [headerSize, hmaj]
  have htr : translate22 id = id := by simp [translate22, hid4]
  have hr1 : readFull (idWidth h)
      (id ++ s0 :: s1 :: s2 :: s3 :: f0 :: f1 :: b0 :: (content ++ rest)) =
      .ok (id, s0 :: s1 :: s2 :: s3 :: f0 :: f1 :: b0 :: (content ++ rest)) :=
    readFull_append _ _ _ (by rw [hid4, hw])
  have hr2 : readFull (content.length + 1) (b0 :: (content ++ rest)) =
      .ok (b0 :: content, rest) := by
    have := readFull_append (content.length + 1) (b0 :: content) rest (by simp)
    simpa using this
  simp [readFramesLoop, hpos, hr1, seekFrame_valid _ _ _ _ hidv,
    Nat.not_le.mpr hpos,
    parseFrameHeader_v24 h hmaj s0 s1 s2 s3 f0 f1 _ henc hdli hcomp,
    hsz, processBody, hidT, hidX, hr2, hdec, htr, hs]

/-- C1 counterexample: a v2.3 tag containing a single `TXXX` frame whose body
fails to decode (encoding selector `0x09` with a truncated terminated
string). The body decode fails, yet `readFrames` returns success with an
empty frame map instead of an error — refuting the claim that any frame
body decode failure aborts the whole decode. -/
theorem c1_counterexample :
    decodeTXXX [] [9, 0] false = some (.error .terminatedStringEOF) ∧
    readFrames (asciiBytes "TXXX" ++ [0, 0, 0, 2] ++ [0, 0] ++ [9, 0]) ⟨3, 0, 20⟩ =
      some (.ok []) := by decide

/-- C1, amended: a failing frame body aborts the whole decode EXCEPT for
`TXXX`: (1) a v2.3 `TXXX` frame whose `decodeTXXX` fails is skipped — the
loop continues past the frame with the `frames` and `txxx` maps unchanged;
(2) a v2.3 text frame whose `decodeTextFrame` fails stops the scan with
that error; (3) a v2.3 `COMM` frame whose comment text fails to decode
stops the scan with that error. -/
theorem c1_body_error_handling :
    (∀ (h : Header) (fuel pos : Nat) (frames txxx : List (List Nat × GoStr))
      (s0 s1 s2 s3 f0 f1 : Nat) (body rest : List Nat) (e : Err),
      h.major = 3 → (f0 * 256 + f1) &&& 4 = 0 → (f0 * 256 + f1) &&& 1 = 0 →
      (f0 * 256 + f1) &&& 8 = 0 → pos < h.size →
      ((s0 * 256 + s1) * 256 + s2) * 256 + s3 = body.length →
      decodeTXXX txxx body
        ((h.flags &&& 128 != 0) || ((f0 * 256 + f1) &&& 2 != 0)) = some (.error e) →
      readFramesLoop h (fuel + 1) pos frames txxx
        (asciiBytes "TXXX" ++ s0 :: s1 :: s2 :: s3 :: f0 :: f1 :: (body ++ rest)) =
      readFramesLoop h fuel ((pos + body.length + 10) % 4294967296) frames txxx rest) ∧
    (∀ (h : Header) (fuel pos : Nat) (frames txxx : List (List Nat × GoStr))
      (id : List Nat) (s0 s1 s2 s3 f0 f1 b0 : Nat) (content rest : List Nat)
      (e : Err),
      h.major = 3 → id.length = 4 → validFrameName id = true →
      id.head? = some 84 → id ≠ asciiBytes "TXXX" →
      (f0 * 256 + f1) &&& 4 = 0 → (f0 * 256 + f1) &&& 1 = 0 →
      (f0 * 256 + f1) &&& 8 = 0 → pos < h.size →
      ((s0 * 256 + s1) * 256 + s2) * 256 + s3 = content.length + 1 →
      decodeTextFrame b0 content
        ((h.flags &&& 128 != 0) || ((f0 * 256 + f1) &&& 2 != 0)) = some (.error e) →
      readFramesLoop h (fuel + 1) pos frames txxx
        (id ++ s0 :: s1 :: s2 :: s3 :: f0 :: f1 :: b0 :: (content ++ rest)) =
      some (.error e)) ∧
    (∀ (h : Header) (fuel pos : Nat) (frames txxx : List (List Nat × GoStr))
      (s0 s1 s2 s3 f0 f1 enc : Nat) (b rest : List Nat) (e : Err),
      h.major = 3 →
      (f0 * 256 + f1) &&& 4 = 0 → (f0 * 256 + f1) &&& 1 = 0 →
      (f0 * 256 + f1) &&& 8 = 0 → pos < h.size →
      ((s0 * 256 + s1) * 256 + s2) * 256 + s3 = b.length + 1 →
      decodeTextFrame enc (readTerminatedString enc (b.drop 3)).2
        ((h.flags &&& 128 != 0) || ((f0 * 256 + f1) &&& 2 != 0)) = some (.error e) →
      readFramesLoop h (fuel + 1) pos frames txxx
        (asciiBytes "COMM" ++ s0 :: s1 :: s2 :: s3 :: f0 :: f1 :: enc :: (b ++ rest)) =
      some (.error e)) := by
  refine ⟨?_, ?_, ?_⟩
  · intro h fuel pos frames txxx s0 s1 s2 s3 f0 f1 body rest e hmaj henc hdli hcomp
      hpos hsz hdec
    exact step_v23_txxx_err h hmaj fuel pos frames txxx s0 s1 s2 s3 f0 f1 body rest
      henc hdli hcomp hpos hsz e hdec
  · intro h fuel pos frames txxx id s0 s1 s2 s3 f0 f1 b0 content rest e hmaj hid4
      hidv hidT hidX henc hdli hcomp hpos hsz hdec
    exact step_v23_text_err h hmaj fuel pos frames txxx id s0 s1 s2 s3 f0 f1 b0
      content rest hid4 hidv hidT hidX henc hdli hcomp hpos hsz e hdec
  · intro h fuel pos frames txxx s0 s1 s2 s3 f0 f1 enc b rest e hmaj henc hdli
      hcomp hpos hsz hdec
    exact step_v23_comm_err h hmaj fuel pos frames txxx s0 s1 s2 s3 f0 f1 enc b
      rest e henc hdli hcomp hpos hsz hdec

/-- Witness for C1 at concrete inputs: the failing `TXXX` frame of the
counterexample is skipped with maps unchanged; a `TIT2` frame with the
unknown encoding selector `0x09` aborts the scan with that error; so does
a `COMM` frame carrying the unknown encoding selector `0x09`. -/
theorem c1_body_error_handling_witness :
    readFramesLoop ⟨3, 0, 20⟩ 2 0 [] []
      (asciiBytes "TXXX" ++ 0 :: 0 :: 0 :: 2 :: 0 :: 0 :: ([9, 0] ++ [])) =
      readFramesLoop ⟨3, 0, 20⟩ 1 12 [] [] [] ∧
    readFramesLoop ⟨3, 0, 20⟩ 1 0 [] []
      (asciiBytes "TIT2" ++ 0 :: 0 :: 0 :: 2 :: 0 :: 0 :: 9 :: ([0] ++ [])) =
      some (.error (.unknownEncoding 9)) ∧
    readFramesLoop ⟨3, 0, 30⟩ 1 0 [] []
      (asciiBytes "COMM" ++ 0 :: 0 :: 0 :: 7 :: 0 :: 0 :: 9 ::
        ([0, 0, 0, 0, 0, 65] ++ [])) =
      some (.error (.unknownEncoding 9)) := by
  refine ⟨?_, ?_, ?_⟩
  · have h := c1_body_error_handling.1 ⟨3, 0, 20⟩ 1 0 [] [] 0 0 0 2 0 0 [9, 0] []
      .terminatedStringEOF rfl (by decide) (by decide) (by decide) (by decide)
      (by decide) (by decide)
    simpa using h
  · have h := c1_body_error_handling.2.1 ⟨3, 0, 20⟩ 0 0 [] [] (asciiBytes "TIT2")
      0 0 0 2 0 0 9 [0] [] (.unknownEncoding 9) rfl (by decide) (by decide)
      (by decide) (by decide) (by decide) (by decide) (by decide) (by decide)
      (by decide) (by decide)
    simpa using h
  · have h := c1_body_error_handling.2.2 ⟨3, 0, 30⟩ 0 0 [] [] 0 0 0 7 0 0 9
      [0, 0, 0, 0, 0, 65] [] (.unknownEncoding 9) rfl (by decide) (by decide)
      (by decide) (by decide) (by decide) (by decide)
    simpa using h

/-- C3 counterexample: a v2.2 tag with one `TXX` frame (body: encoding `0x00`,
description `"D"`, value `"V"`). Were the ID translated to `TXXX` before
dispatch, the body would go through `decodeTXXX` (second conjunct) and,
since `"D"` is not in `txxxEquiv` (third conjunct), contribute NOTHING to
the frame map. Instead `readFrames` dispatches on the raw ID `TXX`, decodes
the body as a plain text frame, and stores `"D"` under the key `TXXX` —
translation happens only at store time, after body decoding. -/
theorem c3_counterexample :
    readFrames (asciiBytes "TXX" ++ [0, 0, 5] ++ [0, 68, 0, 86, 0]) ⟨2, 0, 11⟩ =
      some (.ok [(asciiBytes "TXXX", [68])]) ∧
    decodeTXXX [] [0, 68, 0, 86, 0] false = some (.ok [(asciiBytes "D", [86])]) ∧
    mapLookup txxxEquiv (asciiBytes "D") = none := by decide

/-- C3, amended: the v2.2 ID translation is applied AFTER body decoding, just
before the decoded value is stored, and body dispatch uses the raw
3-character ID: (1) a v2.2 `TXX` frame is decoded by the plain-text path
(`decodeTextFrame`, not `decodeTXXX`) and its value stored under the
translated key `TXXX` with the `txxx` collection untouched; (2) a v2.2
`COM` frame is stored as verbatim body bytes (not comment-decoded) under
the translated key `COMM`; (3) a v2.2 `PIC` frame matches the
`APIC`/`PIC`/`PRIV` skip case by its raw 3-character name: its body is
discarded and nothing is stored. -/
theorem c3_translate_after_decode :
    (∀ (h : Header) (fuel pos : Nat) (frames txxx : List (List Nat × GoStr))
      (a b c b0 : Nat) (content rest : List Nat) (s : GoStr),
      h.major = 2 → pos < h.size → (a * 256 + b) * 256 + c = content.length + 1 →
      decodeTextFrame b0 content false = some (.ok s) →
      readFramesLoop h (fuel + 1) pos frames txxx
        (asciiBytes "TXX" ++ a :: b :: c :: b0 :: (content ++ rest)) =
      readFramesLoop h fuel ((pos + (content.length + 1) + 6) % 4294967296)
        (mapInsert frames (asciiBytes "TXXX") (truncAtNul s)) txxx rest) ∧
    (∀ (h : Header) (fuel pos : Nat) (frames txxx : List (List Nat × GoStr))
      (a b c : Nat) (body rest : List Nat),
      h.major = 2 → pos < h.size → (a * 256 + b) * 256 + c = body.length →
      readFramesLoop h (fuel + 1) pos frames txxx
        (asciiBytes "COM" ++ a :: b :: c :: (body ++ rest)) =
      readFramesLoop h fuel ((pos + body.length + 6) % 4294967296)
        (mapInsert frames (asciiBytes "COMM") body) txxx rest) ∧
    (∀ (h : Header) (fuel pos : Nat) (frames txxx : List (List Nat × GoStr))
      (a b c : Nat) (tail : List Nat),
      h.major = 2 → pos < h.size →
      readFramesLoop h (fuel + 1) pos frames txxx
        (asciiBytes "PIC" ++ a :: b :: c :: tail) =
      readFramesLoop h fuel ((pos + ((a * 256 + b) * 256 + c) + 6) % 4294967296)
        frames txxx (tail.drop ((a * 256 + b) * 256 + c))) := by
  refine ⟨?_, ?_, ?_⟩
  · intro h fuel pos frames txxx a b c b0 content rest s hmaj hpos hsz hdec
    have hstep := step_v22_text h hmaj fuel pos frames txxx (asciiBytes "TXX")
      a b c b0 content rest (by decide) (by decide) (by decide) hpos hsz s hdec
    rwa [show translate22 (asciiBytes "TXX") = asciiBytes "TXXX" from by decide]
      at hstep
  · intro h fuel pos frames txxx a b c body rest hmaj hpos hsz
    have hstep := step_v22_default h hmaj fuel pos frames txxx (asciiBytes "COM")
      a b c body rest (by decide) (by decide) (by decide) (by decide) (by decide)
      hpos hsz
    rwa [show translate22 (asciiBytes "COM") = asciiBytes "COMM" from by decide]
      at hstep
  · intro h fuel pos frames txxx a b c tail hmaj hpos
    exact step_v22_pic h hmaj fuel pos frames txxx a b c tail hpos

/-- Witness for C3 at concrete inputs: the `TXX` frame of the counterexample
tag, a `COM` frame with body `"xy"` stored verbatim under `COMM`, and a
`PIC` frame whose 2-byte body is discarded with the maps untouched. -/
theorem c3_translate_after_decode_witness :
    readFramesLoop ⟨2, 0, 11⟩ 2 0 [] []
      (asciiBytes "TXX" ++ 0 :: 0 :: 5 :: 0 :: ([68, 0, 86, 0] ++ [])) =
      readFramesLoop ⟨2, 0, 11⟩ 1 11 [(asciiBytes "TXXX", [68])] [] [] ∧
    readFramesLoop ⟨2, 0, 20⟩ 2 0 [] []
      (asciiBytes "COM" ++ 0 :: 0 :: 2 :: ([120, 121] ++ [])) =
      readFramesLoop ⟨2, 0, 20⟩ 1 8 [(asciiBytes "COMM", [120, 121])] [] [] ∧
    readFramesLoop ⟨2, 0, 20⟩ 2 0 [] []
      (asciiBytes "PIC" ++ 0 :: 0 :: 2 :: [1, 2, 3]) =
      readFramesLoop ⟨2, 0, 20⟩ 1 8 [] [] [3] := by
  refine ⟨?_, ?_, ?_⟩
  · have h := c3_translate_after_decode.1 ⟨2, 0, 11⟩ 1 0 [] [] 0 0 5 0
      [68, 0, 86, 0] [] [68, 0, 86] rfl (by decide) (by decide) (by decide)
    simpa using h
  · have h := c3_translate_after_decode.2.1 ⟨2, 0, 20⟩ 1 0 [] [] 0 0 2
      [120, 121] [] rfl (by decide) (by decide)
    simpa using h
  · have h := c3_translate_after_decode.2.2 ⟨2, 0, 20⟩ 1 0 [] [] 0 0 2
      [1, 2, 3] rfl (by decide)
    simpa using h

/-- C5 counterexample: a v2.2 tag whose header has the global
unsynchronisation flag set (`Flags = 0x80`) containing a `TT2` frame with
body `00 FF 00 41`. If the claim held, the body decoder would receive
`true` (global OR frame flag) and, per the second conjunct, store
`C3 BF 41` (`"ÿA"`). The code passes `false` for every v2.2 frame and
stores `C3 BF` (`"ÿ"`, the `00` byte truncating the rest) — the third
conjunct shows the two stored values differ, so the flag actually passed
was not the global flag. -/
theorem c5_counterexample :
    readFrames (asciiBytes "TT2" ++ [0, 0, 4] ++ [0, 255, 0, 65]) ⟨2, 128, 10⟩ =
      some (.ok [(asciiBytes "TIT2", [195, 191])]) ∧
    decodeTextFrame 0 [255, 0, 65] true = some (.ok [195, 191, 65]) ∧
    truncAtNul [195, 191, 65] ≠ [195, 191] := by decide

/-- C5, amended: for v2.3 (and v2.4) frames the effective unsynchronization
flag handed to the body decoder is the header's global flag OR'd with the
frame's own flag bit, but a v2.2 frame's body decoder ALWAYS receives
`false` — the global flag is not consulted: (1) v2.3 text frame decoded
under `(h.flags & 0x80 != 0) || (flags & 2 != 0)`; (2) a v2.4 text frame
likewise (with the frame size decoded through `synchsafe32`); (3) v2.2
text frame decoded under `false` regardless of `h.flags`. -/
theorem c5_effective_unsynch_flag :
    (∀ (h : Header) (fuel pos : Nat) (frames txxx : List (List Nat × GoStr))
      (id : List Nat) (s0 s1 s2 s3 f0 f1 b0 : Nat) (content rest : List Nat)
      (s : GoStr),
      h.major = 3 → id.length = 4 → validFrameName id = true →
      id.head? = some 84 → id ≠ asciiBytes "TXXX" →
      (f0 * 256 + f1) &&& 4 = 0 → (f0 * 256 + f1) &&& 1 = 0 →
      (f0 * 256 + f1) &&& 8 = 0 → pos < h.size →
      ((s0 * 256 + s1) * 256 + s2) * 256 + s3 = content.length + 1 →
      decodeTextFrame b0 content
        ((h.flags &&& 128 != 0) || ((f0 * 256 + f1) &&& 2 != 0)) = some (.ok s) →
      readFramesLoop h (fuel + 1) pos frames txxx
        (id ++ s0 :: s1 :: s2 :: s3 :: f0 :: f1 :: b0 :: (content ++ rest)) =
      readFramesLoop h fuel ((pos + (content.length + 1) + 10) % 4294967296)
        (mapInsert frames id (truncAtNul s)) txxx rest) ∧
    (∀ (h : Header) (fuel pos : Nat) (frames txxx : List (List Nat × GoStr))
      (id : List Nat) (s0 s1 s2 s3 f0 f1 b0 : Nat) (content rest : List Nat)
      (s : GoStr),
      h.major = 4 → id.length = 4 → validFrameName id = true →
      id.head? = some 84 → id ≠ asciiBytes "TXXX" →
      (f0 * 256 + f1) &&& 4 = 0 → (f0 * 256 + f1) &&& 1 = 0 →
      (f0 * 256 + f1) &&& 8 = 0 → pos < h.size →
      synchsafe32 (((s0 * 256 + s1) * 256 + s2) * 256 + s3) = content.length + 1 →
      decodeTextFrame b0 content
        ((h.flags &&& 128 != 0) || ((f0 * 256 + f1) &&& 2 != 0)) = some (.ok s) →
      readFramesLoop h (fuel + 1) pos frames txxx
        (id ++ s0 :: s1 :: s2 :: s3 :: f0 :: f1 :: b0 :: (content ++ rest)) =
      readFramesLoop h fuel ((pos + (content.length + 1) + 10) % 4294967296)
        (mapInsert frames id (truncAtNul s)) txxx rest) ∧
    (∀ (h : Header) (fuel pos : Nat) (frames txxx : List (List Nat × GoStr))
      (id : List Nat) (a b c b0 : Nat) (content rest : List Nat) (s : GoStr),
      h.major = 2 → id.length = 3 → validFrameName id = true →
      id.head? = some 84 → pos < h.size →
      (a * 256 + b) * 256 + c = content.length + 1 →
      decodeTextFrame b0 content false = some (.ok s) →
      readFramesLoop h (fuel + 1) pos frames txxx
        (id ++ a :: b :: c :: b0 :: (content ++ rest)) =
      readFramesLoop h fuel ((pos + (content.length + 1) + 6) % 4294967296)
        (mapInsert frames (translate22 id) (truncAtNul s)) txxx rest) := by
  refine ⟨?_, ?_, ?_⟩
  · intro h fuel pos frames txxx id s0 s1 s2 s3 f0 f1 b0 content rest s hmaj hid4
      hidv hidT hidX henc hdli hcomp hpos hsz hdec
    exact step_v23_text h hmaj fuel pos frames txxx id s0 s1 s2 s3 f0 f1 b0
      content rest hid4 hidv hidT hidX henc hdli hcomp hpos hsz s hdec
  · intro h fuel pos frames txxx id s0 s1 s2 s3 f0 f1 b0 content rest s hmaj hid4
      hidv hidT hidX henc hdli hcomp hpos hsz hdec
    exact step_v24_text h hmaj fuel pos frames txxx id s0 s1 s2 s3 f0 f1 b0
      content rest hid4 hidv hidT hidX henc hdli hcomp hpos hsz s hdec
  · intro h fuel pos frames txxx id a b c b0 content rest s hmaj hid3 hidv hidT
      hpos hsz hdec
    exact step_v22_text h hmaj fuel pos frames txxx id a b c b0 content rest
      hid3 hidv hidT hpos hsz s hdec

/-- Witness for C5 at concrete inputs: a v2.3 `TIT2` frame whose own unsynch
flag bit is set (flags `00 02`) under a clear global flag — the decoder
receives `true` and the stored value shows the `FF 00 → FF` replacement; a
v2.4 `TIT2` frame with a set GLOBAL flag and clear frame flags, where the
decoder also receives `true`; and the v2.2 `TT2` frame of the
counterexample tag, where the decoder receives `false` although the global
flag is set. -/
theorem c5_effective_unsynch_flag_witness :
    readFramesLoop ⟨3, 0, 20⟩ 2 0 [] []
      (asciiBytes "TIT2" ++ 0 :: 0 :: 0 :: 4 :: 0 :: 2 :: 0 :: ([255, 0, 65] ++ [])) =
      readFramesLoop ⟨3, 0, 20⟩ 1 14 [(asciiBytes "TIT2", [195, 191, 65])] [] [] ∧
    readFramesLoop ⟨4, 128, 20⟩ 2 0 [] []
      (asciiBytes "TIT2" ++ 0 :: 0 :: 0 :: 4 :: 0 :: 0 :: 0 :: ([255, 0, 65] ++ [])) =
      readFramesLoop ⟨4, 128, 20⟩ 1 14 [(asciiBytes "TIT2", [195, 191, 65])] [] [] ∧
    readFramesLoop ⟨2, 128, 10⟩ 2 0 [] []
      (asciiBytes "TT2" ++ 0 :: 0 :: 4 :: 0 :: ([255, 0, 65] ++ [])) =
      readFramesLoop ⟨2, 128, 10⟩ 1 10 [(asciiBytes "TIT2", [195, 191])] [] [] := by
  refine ⟨?_, ?_, ?_⟩
  · have h := c5_effective_unsynch_flag.1 ⟨3, 0, 20⟩ 1 0 [] [] (asciiBytes "TIT2")
      0 0 0 4 0 2 0 [255, 0, 65] [] [195, 191, 65] rfl (by decide) (by decide)
      (by decide) (by decide) (by decide) (by decide) (by decide) (by decide)
      (by decide) (by decide)
    simpa using h
  · have h := c5_effective_unsynch_flag.2.1 ⟨4, 128, 20⟩ 1 0 [] []
      (asciiBytes "TIT2") 0 0 0 4 0 0 0 [255, 0, 65] [] [195, 191, 65] rfl
      (by decide) (by decide) (by decide) (by decide) (by decide) (by decide)
      (by decide) (by decide) (by decide) (by decide)
    simpa using h
  · have h := c5_effective_unsynch_flag.2.2 ⟨2, 128, 10⟩ 1 0 [] []
      (asciiBytes "TT2") 0 0 4 0 [255, 0, 65] [] [195, 191, 0, 65] rfl
      (by decide) (by decide) (by decide) (by decide) (by decide) (by decide)
    simpa using h

/-- Characterization of the double-byte-terminator loop: it stops at the
first adjacent `00 00` pair at ANY byte offset, returning the bytes before
the pair and consuming the pair; with no such pair it errors with the
buffer drained. -/
theorem twoByteLoop_eq (l acc : List Nat) :
    twoByteLoop l acc =
      match firstPairIdx l with
      | some k => (.ok (acc ++ l.take k), l.drop (k + 2))
      | none => (.error .terminatedStringEOF, []) := by
  induction l, acc using twoByteLoop.induct with
  | case1 acc => simp [twoByteLoop, firstPairIdx]
  | case2 x acc => simp [twoByteLoop, firstPairIdx]
  | case3 a b rest acc hab =>
    obtain ⟨ha, hb⟩ := hab
    subst ha
    subst hb
    simp [twoByteLoop, firstPairIdx]
  | case4 a b rest acc hab ih =>
    rw [twoByteLoop, if_neg hab, ih]
    rw [show firstPairIdx (a :: b :: rest) = (firstPairIdx (b :: rest)).map (· + 1)
      from by rw [firstPairIdx, if_neg hab]]
    cases hfp : firstPairIdx (b :: rest) with
    | none => simp
    | some k => simp [List.take_succ_cons, List.drop_succ_cons]

/-- C4 counterexample: under encoding `0x01`, the buffer
`41 00 | 00 42 | 00 00` has its first 2-byte-ALIGNED `00 00` unit at offset
4, so the claim predicts six bytes consumed and result `41 00 00 42`.
The code instead terminates at the straddling pair at offset 1, returning
`"A"` and leaving `42 00 00` — consuming 3 bytes, an odd number. -/
theorem c4_counterexample :
    readTerminatedString 0x01 [0x41, 0, 0, 0x42, 0, 0] = (.ok [0x41], [0x42, 0, 0]) ∧
    ¬ 2 ∣ (([0x41, 0, 0, 0x42, 0, 0] : List Nat).length -
      ([0x42, 0, 0] : List Nat).length) := by decide

/-- C4, amended: for encodings `0x01`/`0x02` the reader advances ONE byte per
step (it reads two bytes and unreads one), stopping at the first adjacent
`00 00` pair at any offset — aligned or straddling — consuming the pair;
the consumed byte count is the pair's offset plus 2, which can be odd. With
no adjacent pair anywhere, it fails having drained the buffer. -/
theorem c4_terminated_scan :
    (∀ (enc : Nat) (l : List Nat) (k : Nat), enc = 0x01 ∨ enc = 0x02 →
      firstPairIdx l = some k →
      readTerminatedString enc l = (.ok (l.take k), l.drop (k + 2))) ∧
    (∀ (enc : Nat) (l : List Nat), enc = 0x01 ∨ enc = 0x02 →
      firstPairIdx l = none →
      readTerminatedString enc l = (.error .terminatedStringEOF, [])) := by
  have hcond : ∀ enc : Nat, enc = 0x01 ∨ enc = 0x02 → ¬ (enc = 0x00 ∨ enc = 0x03) := by
    rintro enc (rfl | rfl) <;> decide
  constructor
  · intro enc l k henc hfp
    rw [readTerminatedString, if_neg (hcond enc henc), twoByteLoop_eq, hfp]
    simp
  · intro enc l henc hfp
    rw [readTerminatedString, if_neg (hcond enc henc), twoByteLoop_eq, hfp]

/-- Witness for C4 at concrete inputs: `41 00 00` terminates at offset 1
with result `"A"`; a single `41` byte has no pair and errors. -/
theorem c4_terminated_scan_witness :
    readTerminatedString 0x01 [0x41, 0, 0] = (.ok [0x41], []) ∧
    readTerminatedString 0x02 [0x41] = (.error .terminatedStringEOF, []) := by
  constructor
  · have h := c4_terminated_scan.1 0x01 [0x41, 0, 0] 1 (Or.inl rfl) (by decide)
    simpa using h
  · have h := c4_terminated_scan.2 0x02 [0x41] (Or.inr rfl) (by decide)
    simpa using h

/-- Inserting a binding makes it visible under its own key. -/
theorem mapLookup_insert_self (m : List (List Nat × GoStr)) (k : List Nat)
    (v : GoStr) : mapLookup (mapInsert m k v) k = some v := by
  induction m with
  | nil => simp [mapInsert, mapLookup]
  | cons p rest ih =>
    obtain ⟨k', v'⟩ := p
    by_cases hk : k' = k
    · simp [mapInsert, mapLookup, hk]
    · simp [mapInsert, mapLookup, hk, ih]

/-- Inserting a binding leaves other keys unchanged. -/
theorem mapLookup_insert_ne (m : List (List Nat × GoStr)) (k k' : List Nat)
    (v : GoStr) (h : k ≠ k') :
    mapLookup (mapInsert m k v) k' = mapLookup m k' := by
  induction m with
  | nil => simp [mapInsert, mapLookup, h]
  | cons p rest ih =>
    obtain ⟨k'', v''⟩ := p
    by_cases hk : k'' = k
    · subst hk
      simp [mapInsert, mapLookup, h]
    · by_cases hk2 : k'' = k'
      · subst hk2
        simp [mapInsert, mapLookup, hk, Ne.symm h]
      · simp [mapInsert, mapLookup, hk, hk2, ih]

/-- A successful lookup returns one of the map's values. -/
theorem mapLookup_mem_values (m : List (List Nat × GoStr)) (k : List Nat)
    (v : GoStr) (h : mapLookup m k = some v) : v ∈ m.map Prod.snd := by
  induction m with
  | nil => simp [mapLookup] at h
  | cons p rest ih =>
    obtain ⟨k', v'⟩ := p
    by_cases hk : k' = k
    · simp [mapLookup, hk] at h
      simp [h]
    · simp [mapLookup, hk] at h
      simp [ih h]

/-- In a map whose values are pairwise distinct, a value determines its key. -/
theorem mapLookup_inj_values (m : List (List Nat × GoStr))
    (hm : (m.map Prod.snd).Nodup) (d d' : List Nat) (c : GoStr)
    (h : mapLookup m d = some c) (h' : mapLookup m d' = some c) : d = d' := by
  induction m with
  | nil => simp [mapLookup] at h
  | cons p rest ih =>
    obtain ⟨k', v'⟩ := p
    simp only [List.map_cons, List.nodup_cons] at hm
    by_cases hd : k' = d <;> by_cases hd' : k' = d'
    · rw [← hd, ← hd']
    · exfalso
      simp [mapLookup, hd] at h
      simp [mapLookup, hd'] at h'
      exact hm.1 (h ▸ mapLookup_mem_values rest d' c h')
    · exfalso
      simp [mapLookup, hd] at h
      simp [mapLookup, hd'] at h'
      exact hm.1 (h' ▸ mapLookup_mem_values rest d c h)
    · simp [mapLookup, hd] at h
      simp [mapLookup, hd'] at h'
      exact ih hm.2 h h'

/-- When no entry of `t` maps (via `txxxEquiv`) to the canonical ID `cid`,
merging `t` leaves the value under `cid` unchanged. -/
theorem translate_unmapped_entries (t : List (List Nat × GoStr))
    (f : List (List Nat × GoStr)) (cid : List Nat)
    (h : ∀ p ∈ t, mapLookup txxxEquiv p.1 ≠ some cid) :
    mapLookup (translateTXXXFrames f t) cid = mapLookup f cid := by
  induction t generalizing f with
  | nil => simp [translateTXXXFrames]
  | cons p rest ih =>
    obtain ⟨key, val⟩ := p
    rw [translateTXXXFrames]
    cases hk : mapLookup txxxEquiv key with
    | none => exact ih f (fun q hq => h q (List.mem_cons_of_mem _ hq))
    | some fid =>
      rw [ih _ (fun q hq => h q (List.mem_cons_of_mem _ hq))]
      have hne : fid ≠ cid := by
        intro he
        exact h (key, val) (List.mem_cons_self _ _) (by rw [hk, he])
      exact mapLookup_insert_ne f fid cid val hne

/-- The `txxxEquiv` table maps distinct descriptions to distinct canonical
IDs. -/
theorem txxxEquiv_values_nodup : (txxxEquiv.map Prod.snd).Nodup := by decide

/-- C7: merging the collected TXXX pairs after the scan: (1) a pair whose
description is not in `txxxEquiv` contributes nothing to the frame map;
(2) a pair whose description maps to canonical ID `cid` ends up stored
under `cid` — overwriting whatever value (e.g. from a built-in frame) the
frame map held there — provided no later TXXX entry reuses the same
description; (3) concretely, in a v2.3 tag with a built-in `TALB` frame
(`"A"`) followed by a `TXXX` frame with description `ALBUM` and value
`"ZZ"`, the whole decode yields `TALB = "ZZ"`: the user-text value is
applied after the scan and wins over the built-in frame. -/
theorem c7_txxx_merge :
    (∀ (frames t1 t2 : List (List Nat × GoStr)) (desc : List Nat) (val : GoStr),
      mapLookup txxxEquiv desc = none →
      translateTXXXFrames frames (t1 ++ (desc, val) :: t2) =
        translateTXXXFrames frames (t1 ++ t2)) ∧
    (∀ (frames t1 t2 : List (List Nat × GoStr)) (desc cid : List Nat) (val : GoStr),
      mapLookup txxxEquiv desc = some cid → (∀ p ∈ t2, p.1 ≠ desc) →
      mapLookup (translateTXXXFrames frames (t1 ++ (desc, val) :: t2)) cid =
        some val) ∧
    readFrames (asciiBytes "TALB" ++ [0, 0, 0, 2] ++ [0, 0] ++ [0, 65]
        ++ asciiBytes "TXXX" ++ [0, 0, 0, 9] ++ [0, 0]
        ++ [0] ++ asciiBytes "ALBUM" ++ [0] ++ asciiBytes "ZZ") ⟨3, 0, 50⟩ =
      some (.ok [(asciiBytes "TALB", asciiBytes "ZZ")]) := by
  refine ⟨?_, ?_, by decide⟩
  · intro frames t1 t2 desc val h
    induction t1 generalizing frames with
    | nil => simp [translateTXXXFrames, h]
    | cons p rest ih =>
      obtain ⟨key, v⟩ := p
      simp only [List.cons_append, translateTXXXFrames]
      cases hk : mapLookup txxxEquiv key with
      | none => exact ih _
      | some fid => exact ih _
  · intro frames t1 t2 desc cid val h ht2
    induction t1 generalizing frames with
    | nil =>
      rw [List.nil_append, translateTXXXFrames, h]
      rw [translate_unmapped_entries t2 _ cid ?_]
      · exact mapLookup_insert_self frames cid val
      · intro q hq hqc
        exact ht2 q hq
          (mapLookup_inj_values txxxEquiv txxxEquiv_values_nodup q.1 desc cid hqc h)
    | cons p rest ih =>
      obtain ⟨key, v⟩ := p
      simp only [List.cons_append, translateTXXXFrames]
      cases hk : mapLookup txxxEquiv key with
      | none => exact ih _
      | some fid => exact ih _

/-- Witness for C7 at concrete inputs: an unmapped description (`"D"`)
contributes nothing; the mapped description `ALBUM` stores its value under
`TALB`, overwriting the built-in value `"A"`. -/
theorem c7_txxx_merge_witness :
    translateTXXXFrames [(asciiBytes "TALB", [65])]
        ([] ++ (asciiBytes "D", [86]) :: []) =
      translateTXXXFrames [(asciiBytes "TALB", [65])] ([] ++ []) ∧
    mapLookup (translateTXXXFrames [(asciiBytes "TALB", [65])]
        ([] ++ (asciiBytes "ALBUM", asciiBytes "ZZ") :: []))
      (asciiBytes "TALB") = some (asciiBytes "ZZ") := by
  constructor
  · exact c7_txxx_merge.1 [(asciiBytes "TALB", [65])] [] [] (asciiBytes "D") [86]
      (by decide)
  · exact c7_txxx_merge.2.1 [(asciiBytes "TALB", [65])] [] [] (asciiBytes "ALBUM")
      (asciiBytes "TALB") (asciiBytes "ZZ") (by decide) (by simp)

/-- A run of non-separator characters is accumulated into the current
field. -/
theorem fieldsFuncAux_token (p : Nat → Bool) (tok : List Nat) :
    ∀ (rest acc : List Nat), (∀ ch ∈ tok, p ch = false) →
    fieldsFuncAux p (tok ++ rest) acc = fieldsFuncAux p rest (tok.reverse ++ acc) := by
  induction tok with
  | nil => intro rest acc _; simp
  | cons ch tok' ih =>
    intro rest acc h
    have hch : p ch = false := h ch (List.mem_cons_self _ _)
    rw [List.cons_append, fieldsFuncAux, hch]
    simp only [Bool.false_eq_true, if_false]
    rw [ih rest (ch :: acc) (fun c hc => h c (List.mem_cons_of_mem _ hc))]
    simp

/-- Leading separators with an empty accumulator are discarded. -/
theorem fieldsFuncAux_sep_nil (p : Nat → Bool) (sep : List Nat) :
    ∀ rest : List Nat, (∀ ch ∈ sep, p ch = true) →
    fieldsFuncAux p (sep ++ rest) [] = fieldsFuncAux p rest [] := by
  induction sep with
  | nil => intro rest _; simp
  | cons ch sep' ih =>
    intro rest h
    rw [List.cons_append, fieldsFuncAux, h ch (List.mem_cons_self _ _)]
    simp only [if_true, if_pos rfl]
    exact ih rest (fun c hc => h c (List.mem_cons_of_mem _ hc))

/-- A separator run flushes a non-empty accumulator as one field. -/
theorem fieldsFuncAux_sep_emit (p : Nat → Bool) (sep rest acc : List Nat)
    (hs : sep ≠ []) (h : ∀ ch ∈ sep, p ch = true) (ha : acc ≠ []) :
    fieldsFuncAux p (sep ++ rest) acc = acc.reverse :: fieldsFuncAux p rest [] := by
  cases sep with
  | nil => exact absurd rfl hs
  | cons ch sep' =>
    rw [List.cons_append, fieldsFuncAux, h ch (List.mem_cons_self _ _)]
    simp only [if_true]
    rw [if_neg ha]
    rw [fieldsFuncAux_sep_nil p sep' rest (fun c hc => h c (List.mem_cons_of_mem _ hc))]

/-- `FieldsFunc` on token–separators–token input returns the two tokens. -/
theorem fieldsFunc_two (p : Nat → Bool) (d1 sep d2 : List Nat)
    (h1 : d1 ≠ []) (hs : sep ≠ []) (h2 : d2 ≠ [])
    (hd1 : ∀ ch ∈ d1, p ch = false) (hsep : ∀ ch ∈ sep, p ch = true)
    (hd2 : ∀ ch ∈ d2, p ch = false) :
    fieldsFunc p (d1 ++ sep ++ d2) = [d1, d2] := by
  rw [fieldsFunc, List.append_assoc, fieldsFuncAux_token p d1 _ _ hd1]
  rw [List.append_nil, fieldsFuncAux_sep_emit p sep d2 d1.reverse hs hsep
    (by simpa using h1)]
  rw [List.reverse_reverse]
  have := fieldsFuncAux_token p d2 [] [] hd2
  rw [List.append_nil] at this
  rw [this, fieldsFuncAux]
  simp [h2]

/-- `FieldsFunc` on a single separator-free token returns just that token. -/
theorem fieldsFunc_one (p : Nat → Bool) (d : List Nat) (h1 : d ≠ [])
    (hd : ∀ ch ∈ d, p ch = false) : fieldsFunc p d = [d] := by
  rw [fieldsFunc]
  have := fieldsFuncAux_token p d [] [] hd
  rw [List.append_nil] at this
  rw [this, fieldsFuncAux]
  simp [h1]

/-- An ASCII digit is not a punctuation character (true of the ASCII
restriction, as of the full `unicode.IsPunct`). -/
theorem isDigit_not_punct (ch : Nat) (h : isDigit ch = true) :
    isPunctASCII ch = false := by
  simp only [isDigit, decide_eq_true_eq] at h
  obtain ⟨ha, hb⟩ := h
  interval_cases ch <;> decide

/-- `strconv.Atoi` on a non-empty all-digit token within the `int64` range
returns its numeric value. -/
theorem goAtoi_digits (d : List Nat) (h1 : d ≠ []) (hd : d.all isDigit = true)
    (hr : digitsVal d < 2 ^ 63) : goAtoi d = some (digitsVal d) := by
  have hr' : digitsVal d < 9223372036854775808 := by
    norm_num at hr
    exact hr
  cases d with
  | nil => exact absurd rfl h1
  | cons c rest =>
    have hc : 48 ≤ c ∧ c ≤ 57 := by
      have h0 := hd
      rw [List.all_cons, Bool.and_eq_true] at h0
      simpa [isDigit, decide_eq_true_eq] using h0.1
    have h45 : ¬ c = 45 := by omega
    have h43 : ¬ c = 43 := by omega
    rw [goAtoi]
    simp only [h45, h43, if_false]
    simp [hd, hr, hr']

/-- C9 counterexample: `"9223372036854775808/1"` matches the claim's grammar
(a digit run, a punctuation character, a digit run), but the first number
is `2^63`, outside Go's `int64` range, so `strconv.Atoi` fails and
`parseMultiNumber` returns the error instead of yielding the numbers. -/
theorem c9_counterexample :
    asciiBytes "9223372036854775808/1" =
      asciiBytes "9223372036854775808" ++ [47] ++ [49] ∧
    (asciiBytes "9223372036854775808").all isDigit = true ∧
    isPunctASCII 47 = true ∧
    parseMultiNumber isPunctASCII (asciiBytes "9223372036854775808/1") =
      .error .badNumber := by
  decide

/-- C9, amended: for a `TPOS`/`TRCK` value matching the grammar
digits–punctuation-run–digits, parsing yields the two numbers PROVIDED each
digit run's value fits in a signed 64-bit integer (Go's `strconv.Atoi`
fails on larger values even though the token is numeric): (1) two in-range
tokens parse to (first, second); (2) a lone in-range number yields total 0;
(3) a non-numeric first split token makes the parse fail; (4) a
`parseMultiNumber` failure on a non-empty `TPOS` value is returned by the
tag assembler. -/
theorem c9_multi_number :
    (∀ isPunct : Nat → Bool, (∀ ch, isDigit ch = true → isPunct ch = false) →
      ∀ d1 sep d2 : List Nat, d1 ≠ [] → sep ≠ [] → d2 ≠ [] →
      d1.all isDigit = true → sep.all isPunct = true → d2.all isDigit = true →
      digitsVal d1 < 2 ^ 63 → digitsVal d2 < 2 ^ 63 →
      parseMultiNumber isPunct (d1 ++ sep ++ d2) = .ok (digitsVal d1, digitsVal d2)) ∧
    (∀ isPunct : Nat → Bool, (∀ ch, isDigit ch = true → isPunct ch = false) →
      ∀ d : List Nat, d ≠ [] → d.all isDigit = true → digitsVal d < 2 ^ 63 →
      parseMultiNumber isPunct d = .ok (digitsVal d, 0)) ∧
    (∀ (isPunct : Nat → Bool) (s t1 : List Nat) (rest : List (List Nat)),
      fieldsFunc isPunct s = t1 :: rest → goAtoi t1 = none →
      parseMultiNumber isPunct s = .error .badNumber) ∧
    (∀ (isPunct : Nat → Bool) (frames : List (List Nat × GoStr)) (s : GoStr)
      (e : Err),
      mapLookup frames (asciiBytes "TPOS") = some s → s ≠ [] →
      parseMultiNumber isPunct s = .error e →
      makeTagsNums isPunct frames = .error e) := by
  refine ⟨?_, ?_, ?_, ?_⟩
  · intro isPunct hdig d1 sep d2 h1 hs h2 hd1 hsep hd2 hr1 hr2
    have hp1 : ∀ ch ∈ d1, isPunct ch = false := fun ch hc =>
      hdig ch (List.all_eq_true.mp hd1 ch hc)
    have hp2 : ∀ ch ∈ d2, isPunct ch = false := fun ch hc =>
      hdig ch (List.all_eq_true.mp hd2 ch hc)
    have hps : ∀ ch ∈ sep, isPunct ch = true := fun ch hc =>
      List.all_eq_true.mp hsep ch hc
    rw [parseMultiNumber, fieldsFunc_two isPunct d1 sep d2 h1 hs h2 hp1 hps hp2]
    simp [goAtoi_digits d1 h1 hd1 hr1, goAtoi_digits d2 h2 hd2 hr2]
  · intro isPunct hdig d h1 hd hr
    have hp : ∀ ch ∈ d, isPunct ch = false := fun ch hc =>
      hdig ch (List.all_eq_true.mp hd ch hc)
    rw [parseMultiNumber, fieldsFunc_one isPunct d h1 hp]
    simp [goAtoi_digits d h1 hd hr]
  · intro isPunct s t1 rest hf ha
    rw [parseMultiNumber, hf]
    simp [ha]
  · intro isPunct frames s e hl hne hp
    rw [makeTagsNums, hl]
    simp [hne, hp]

/-- Witness for C9 at concrete inputs: `"2/10"` parses to disc 2 of 10; `"5"`
parses to 5 with total 0; `"abc"` fails; a frame map with `TPOS = "abc"`
makes the tag assembler fail. -/
theorem c9_multi_number_witness :
    parseMultiNumber isPunctASCII (asciiBytes "2/10") = .ok (2, 10) ∧
    parseMultiNumber isPunctASCII (asciiBytes "5") = .ok (5, 0) ∧
    parseMultiNumber isPunctASCII (asciiBytes "abc") = .error .badNumber ∧
    makeTagsNums isPunctASCII [(asciiBytes "TPOS", asciiBytes "abc")] =
      .error .badNumber := by
  refine ⟨?_, ?_, ?_, ?_⟩
  · have h := c9_multi_number.1 isPunctASCII isDigit_not_punct [50] [47] [49, 48]
      (by decide) (by decide) (by decide) (by decide) (by decide) (by decide)
      (by decide) (by decide)
    simpa using h
  · have h := c9_multi_number.2.1 isPunctASCII isDigit_not_punct [53] (by decide)
      (by decide) (by decide)
    simpa using h
  · exact c9_multi_number.2.2.1 isPunctASCII (asciiBytes "abc") (asciiBytes "abc")
      [] (by decide) (by decide)
  · exact c9_multi_number.2.2.2 isPunctASCII [(asciiBytes "TPOS", asciiBytes "abc")]
      (asciiBytes "abc") .badNumber (by decide) (by decide)
      (c9_multi_number.2.2.1 isPunctASCII (asciiBytes "abc") (asciiBytes "abc") []
        (by decide) (by decide))
